/-
  Verification of the MySocket in-process socket emulation.

  Shallow embedding of the C sources (src/socket_core.c, socket_bind_listen.c,
  socket_accept_connect.c, socket_sendrecv.c, socket_buffer.c, socket_utils.c,
  tcp_protocol.c) into Lean 4.  Machine integers (uint16_t, uint32_t, size_t)
  are modelled as Nat; expressions that cannot overflow in the C code are
  written without an explicit modulus, expressions that can are reduced
  mod 2^16 / 2^32.  Pointers are modelled as indices into the registry list;
  the mutex, debug printing and the real-time sleep are irrelevant to the
  properties proved and are omitted.  Calls to rand() are modelled by an
  explicit Nat parameter.
-/
import Mathlib

set_option maxHeartbeats 1000000

namespace MySocket

/-! ## Constants (mysocket.h / socket_internal.h) -/

def AF_INET : Nat := 2
def SOCK_STREAM : Nat := 1
def SOCK_DGRAM : Nat := 2
def SOCK_RAW : Nat := 3
def IPPROTO_TCP : Nat := 6
def IPPROTO_UDP : Nat := 17

def MYSOCKET_OK : Int := 0
def MYSOCKET_ERROR : Int := -1
def MYSOCKET_EAGAIN : Int := -2
def MYSOCKET_EINVAL : Int := -3
def MYSOCKET_EADDRINUSE : Int := -4
def MYSOCKET_ECONNREFUSED : Int := -5

def DEFAULT_SEND_BUFFER_SIZE : Nat := 8192
def DEFAULT_RECV_BUFFER_SIZE : Nat := 8192
def DEFAULT_LISTEN_BACKLOG : Nat := 128

def TCP_FLAG_FIN : Nat := 0x01
def TCP_FLAG_SYN : Nat := 0x02
def TCP_FLAG_PSH : Nat := 0x08
def TCP_FLAG_ACK : Nat := 0x10

/- sizeof(struct mysocket_addr_in): 2 + 2 + 4 + 8 bytes of padding. -/
def sizeof_addr_in : Nat := 16

/-! ## Byte-order conversion (socket_utils.c, mysocket_htons .. mysocket_ntohl) -/

def mysocket_htons (hostshort : Nat) : Nat :=
  ((hostshort &&& 0xFF) <<< 8) ||| ((hostshort >>> 8) &&& 0xFF)

def mysocket_ntohs (netshort : Nat) : Nat :=
  ((netshort &&& 0xFF) <<< 8) ||| ((netshort >>> 8) &&& 0xFF)

def mysocket_htonl (hostlong : Nat) : Nat :=
  ((hostlong &&& 0xFF) <<< 24) |||
  (((hostlong >>> 8) &&& 0xFF) <<< 16) |||
  (((hostlong >>> 16) &&& 0xFF) <<< 8) |||
  ((hostlong >>> 24) &&& 0xFF)

def mysocket_ntohl (netlong : Nat) : Nat :=
  ((netlong &&& 0xFF) <<< 24) |||
  (((netlong >>> 8) &&& 0xFF) <<< 16) |||
  (((netlong >>> 16) &&& 0xFF) <<< 8) |||
  ((netlong >>> 24) &&& 0xFF)


/-! ## Dotted-decimal parse and format (socket_utils.c)

`mysocket_inet_addr` calls `sscanf(cp, "%u.%u.%u.%u", ...)`.  We model the
scanf `%u` conversion: skip whitespace, an optional sign, then a maximal
nonempty run of decimal digits (value reduced mod 2^32 as in unsigned
conversion); a literal `.` in the format must match the next character
exactly; characters after the fourth group are ignored.  `sscanf` returns
the number of conversions performed, and the C code demands exactly 4. -/

def isDig (c : Char) : Bool := 48 ≤ c.toNat && c.toNat ≤ 57

def isSpc (c : Char) : Bool := c.toNat == 32 || (9 ≤ c.toNat && c.toNat ≤ 13)

def charsToNat (l : List Char) : Nat :=
  l.foldl (fun a c => a * 10 + (c.toNat - 48)) 0

def scanSign (l : List Char) : Bool × List Char :=
  match l with
  | c :: t => if c = '-' then (true, t) else if c = '+' then (false, t) else (false, l)
  | [] => (false, l)

def scanDigits (neg : Bool) (l2 : List Char) : Option (Nat × List Char) :=
  if l2.takeWhile isDig = [] then none
  else some
    ((if neg then (4294967296 - charsToNat (l2.takeWhile isDig) % 4294967296) % 4294967296
      else charsToNat (l2.takeWhile isDig) % 4294967296),
     l2.dropWhile isDig)

def scanUInt (l : List Char) : Option (Nat × List Char) :=
  scanDigits (scanSign (l.dropWhile isSpc)).1 (scanSign (l.dropWhile isSpc)).2

def scanQuad (l : List Char) : Option (Nat × Nat × Nat × Nat) :=
  match scanUInt l with
  | none => none
  | some (a, r1) =>
    match r1 with
    | '.' :: r2 =>
      match scanUInt r2 with
      | none => none
      | some (b, r3) =>
        match r3 with
        | '.' :: r4 =>
          match scanUInt r4 with
          | none => none
          | some (c, r5) =>
            match r5 with
            | '.' :: r6 =>
              match scanUInt r6 with
              | none => none
              | some (d, _) => some (a, b, c, d)
            | _ => none
        | _ => none
    | _ => none

/- mysocket_inet_addr: 0 is returned both on scan/range failure and for the
   valid input "0.0.0.0", exactly as in the C code. -/
def mysocket_inet_addr (cp : String) : Nat :=
  match scanQuad cp.data with
  | none => 0
  | some (a, b, c, d) =>
    if a > 255 ∨ b > 255 ∨ c > 255 ∨ d > 255 then 0
    else mysocket_htonl ((a <<< 24) ||| (b <<< 16) ||| (c <<< 8) ||| d)

def digChar (d : Nat) : Char :=
  match d with
  | 0 => '0' | 1 => '1' | 2 => '2' | 3 => '3' | 4 => '4'
  | 5 => '5' | 6 => '6' | 7 => '7' | 8 => '8' | 9 => '9'
  | _ => '*'

/- Decimal rendering of one `%u` field of snprintf (most significant digit
   first, no padding, "0" for zero); structural on a fuel bounded by n. -/
def decReprCore (fuel n : Nat) : List Char :=
  match fuel with
  | 0 => []
  | fuel + 1 => if n = 0 then [] else decReprCore fuel (n / 10) ++ [digChar (n % 10)]

def decRepr (n : Nat) : List Char :=
  if n = 0 then ['0'] else decReprCore n n

/- snprintf(str, 16, "%u.%u.%u.%u", host>>24 & FF, host>>16 & FF, host>>8 & FF,
   host & FF) on host := ntohl(addr). -/
def mysocket_inet_ntoa (addr : Nat) : String :=
  String.mk
    (decRepr ((mysocket_ntohl addr >>> 24) &&& 0xFF) ++
     ('.' :: (decRepr ((mysocket_ntohl addr >>> 16) &&& 0xFF) ++
     ('.' :: (decRepr ((mysocket_ntohl addr >>> 8) &&& 0xFF) ++
     ('.' :: decRepr (mysocket_ntohl addr &&& 0xFF)))))))

def canonQuad (a b c d : Nat) : List Char :=
  decRepr a ++ ('.' :: (decRepr b ++ ('.' :: (decRepr c ++ ('.' :: decRepr d)))))

/- A canonical quad with an optional explicit plus sign in front of any of
   the four groups (what sscanf %u also consumes). -/
def plusIf (f : Bool) (l : List Char) : List Char := if f then '+' :: l else l

def canonQuadPlus (f1 f2 f3 f4 : Bool) (a b c d : Nat) : List Char :=
  plusIf f1 (decRepr a) ++
    ('.' :: (plusIf f2 (decRepr b) ++
      ('.' :: (plusIf f3 (decRepr c) ++ ('.' :: plusIf f4 (decRepr d))))))

/-! ## Data model (mysocket.h)

A socket's buffers are modelled by the list of their first `used` bytes plus
the capacity; `used` is the list length.  Pointers into the registry are
modelled by indices into `socket_list`; `fd` values identify sockets across
calls exactly as in the C API. -/

inductive SockState where
  | SS_UNCONNECTED
  | SS_CONNECTING
  | SS_CONNECTED
  | SS_DISCONNECTING
  | SS_LISTENING
  | SS_CLOSED
deriving DecidableEq, Repr

inductive TcpState where
  | TCP_ESTABLISHED
  | TCP_SYN_SENT
  | TCP_SYN_RECV
  | TCP_FIN_WAIT1
  | TCP_FIN_WAIT2
  | TCP_TIME_WAIT
  | TCP_CLOSED
  | TCP_CLOSE_WAIT
  | TCP_LAST_ACK
  | TCP_LISTEN
  | TCP_CLOSING
deriving DecidableEq, Repr, Fintype

structure AddrIn where
  sin_family : Nat
  sin_port : Nat
  sin_addr : Nat
deriving DecidableEq, Repr

structure MySock where
  fd : Nat
  family : Nat
  type : Nat
  protocol : Nat
  state : SockState
  tcp_state : TcpState
  local_addr : AddrIn
  peer_addr : AddrIn
  send_buf : List Nat
  send_buf_size : Nat
  recv_buf : List Nat
  recv_buf_size : Nat
  listen_queue : List Nat
  listen_backlog : Nat
deriving DecidableEq, Repr

structure Manager where
  socket_list : List MySock
  next_fd : Nat
deriving DecidableEq, Repr

structure CallResult where
  mgr : Manager
  ret : Int
  err : Option Int
deriving DecidableEq, Repr

def setSock (m : Manager) (i : Nat) (s : MySock) : Manager :=
  { m with socket_list := m.socket_list.set i s }

/- The delivery path mutates only a socket's tcp_state and the two byte
   buffers; sockShape normalises those fields so that "shape-equal" states
   agree on everything the registry searches (fd, type, state, addresses, ...). -/
def sockShape (s : MySock) : MySock :=
  { s with tcp_state := TcpState.TCP_CLOSED, recv_buf := [], send_buf := [] }

def updateSock (m : Manager) (i : Nat) (f : MySock → MySock) : Manager :=
  match m.socket_list[i]? with
  | none => m
  | some s => setSock m i (f s)

/-! ## Registry lookup (socket_core.c / socket_utils.c / socket_sendrecv.c) -/

def socket_find_by_fd (m : Manager) (fd : Nat) : Option (Nat × MySock) :=
  match m.socket_list.findIdx? (fun s => s.fd == fd) with
  | none => none
  | some i =>
    match m.socket_list[i]? with
    | none => none
    | some s => some (i, s)

def socket_find_by_address (m : Manager) (addr : AddrIn) : Option Nat :=
  m.socket_list.findIdx? (fun cur => decide
    (cur.local_addr.sin_port = addr.sin_port ∧
     (cur.local_addr.sin_addr = 0 ∨ cur.local_addr.sin_addr = addr.sin_addr)))

def socket_find_udp_receiver (m : Manager) (addr : AddrIn) : Option Nat :=
  m.socket_list.findIdx? (fun cur => decide
    (cur.type = SOCK_DGRAM ∧
     cur.local_addr.sin_port = addr.sin_port ∧
     (cur.local_addr.sin_addr = 0 ∨ cur.local_addr.sin_addr = addr.sin_addr)))

def socket_find_listening_socket (m : Manager) (addr : AddrIn) : Option Nat :=
  m.socket_list.findIdx? (fun cur => decide
    (cur.state = SockState.SS_LISTENING ∧
     cur.local_addr.sin_port = addr.sin_port ∧
     (cur.local_addr.sin_addr = 0 ∨ cur.local_addr.sin_addr = addr.sin_addr)))

/-! ## Address helpers (socket_bind_listen.c) -/

def socket_addr_is_any (a : AddrIn) : Bool := a.sin_addr == 0

/- socket_addr_copy: succeeds iff the family is AF_INET and addrlen suffices;
   on success the 16-byte structure is copied verbatim. -/
def socket_addr_copy (src : AddrIn) (addrlen : Nat) : Option AddrIn :=
  if src.sin_family ≠ AF_INET then none
  else if addrlen < sizeof_addr_in then none
  else some src

/- The loop over the registry; the `exclude_fd >= 0` guard is always true at
   every call site (fds are nonnegative), so exclusion is by fd equality. -/
def socket_check_addr_in_use (m : Manager) (addr : AddrIn) (exclude_fd : Nat) : Bool :=
  m.socket_list.any (fun cur => decide
    (cur.fd ≠ exclude_fd ∧
     cur.local_addr.sin_port ≠ 0 ∧
     cur.local_addr.sin_port = addr.sin_port ∧
     (cur.local_addr.sin_addr = 0 ∨ addr.sin_addr = 0 ∨
      cur.local_addr.sin_addr = addr.sin_addr)))

/-! ## bind / listen (socket_bind_listen.c) -/

def mysocket_bind (m : Manager) (sockfd : Nat) (addr : AddrIn) (addrlen : Nat) :
    CallResult :=
  match socket_find_by_fd m sockfd with
  | none => ⟨m, -1, some MYSOCKET_EINVAL⟩
  | some (i, sock) =>
    if addrlen < sizeof_addr_in then ⟨m, -1, some MYSOCKET_EINVAL⟩
    else if sock.state ≠ SockState.SS_UNCONNECTED then ⟨m, -1, some MYSOCKET_EINVAL⟩
    else if socket_addr_is_any addr = false ∧
            socket_check_addr_in_use m addr sock.fd = true then
      ⟨m, -1, some MYSOCKET_EADDRINUSE⟩
    else
      match socket_addr_copy addr addrlen with
      | none => ⟨m, -1, some MYSOCKET_EINVAL⟩
      | some a =>
        ⟨setSock m i { sock with local_addr := a, state := SockState.SS_UNCONNECTED },
         0, none⟩

/- mysocket_listen; the calloc of the queue is assumed to succeed (allocation
   failure is a GENERIC_ERROR path not modelled). -/
def mysocket_listen (m : Manager) (sockfd : Nat) (backlog : Int) : CallResult :=
  match socket_find_by_fd m sockfd with
  | none => ⟨m, -1, some MYSOCKET_EINVAL⟩
  | some (i, sock) =>
    if sock.type ≠ SOCK_STREAM then ⟨m, -1, some MYSOCKET_EINVAL⟩
    else if sock.local_addr.sin_port = 0 then ⟨m, -1, some MYSOCKET_EINVAL⟩
    else if sock.state ≠ SockState.SS_UNCONNECTED then ⟨m, -1, some MYSOCKET_EINVAL⟩
    else
      ⟨setSock m i { sock with
          listen_queue := [],
          listen_backlog :=
            (if backlog ≤ 0 then (DEFAULT_LISTEN_BACKLOG : Int)
             else if backlog > (DEFAULT_LISTEN_BACKLOG : Int) then (DEFAULT_LISTEN_BACKLOG : Int)
             else backlog).toNat,
          state := SockState.SS_LISTENING,
          tcp_state := if sock.protocol = IPPROTO_TCP then TcpState.TCP_LISTEN
                       else sock.tcp_state },
       0, none⟩

/-! ## Buffer write (socket_buffer.c); buffer content is its first `used`
bytes, `used` is the length, `total` the capacity. -/

def socket_buffer_write (buffer : List Nat) (total : Nat) (data : List Nat)
    (len : Nat) : List Nat × Int :=
  if total - buffer.length = 0 then (buffer, 0)
  else
    (buffer ++ data.take (min len (total - buffer.length)),
     ((min len (total - buffer.length) : Nat) : Int))

/-! ## TCP state machine (tcp_protocol.c, tcp_state_transition) -/

def TCP_EVENT_LISTEN : Nat := 1
def TCP_EVENT_CONNECT : Nat := 2
def TCP_EVENT_SYN_RECV : Nat := 3
def TCP_EVENT_SYN_ACK_RECV : Nat := 4
def TCP_EVENT_ACK_RECV : Nat := 5
def TCP_EVENT_FIN_RECV : Nat := 6
def TCP_EVENT_CLOSE : Nat := 7
def TCP_EVENT_TIMEOUT : Nat := 8

def tcp_state_transition (s : TcpState) (event : Nat) : TcpState :=
  match s with
  | .TCP_CLOSED =>
    if event = TCP_EVENT_LISTEN then .TCP_LISTEN
    else if event = TCP_EVENT_CONNECT then .TCP_SYN_SENT
    else s
  | .TCP_LISTEN =>
    if event = TCP_EVENT_SYN_RECV then .TCP_SYN_RECV else s
  | .TCP_SYN_SENT =>
    if event = TCP_EVENT_SYN_ACK_RECV then .TCP_ESTABLISHED else s
  | .TCP_SYN_RECV =>
    if event = TCP_EVENT_ACK_RECV then .TCP_ESTABLISHED else s
  | .TCP_ESTABLISHED =>
    if event = TCP_EVENT_FIN_RECV then .TCP_CLOSE_WAIT
    else if event = TCP_EVENT_CLOSE then .TCP_FIN_WAIT1
    else s
  | .TCP_FIN_WAIT1 =>
    if event = TCP_EVENT_ACK_RECV then .TCP_FIN_WAIT2
    else if event = TCP_EVENT_FIN_RECV then .TCP_CLOSING
    else s
  | .TCP_FIN_WAIT2 =>
    if event = TCP_EVENT_FIN_RECV then .TCP_TIME_WAIT else s
  | .TCP_CLOSE_WAIT =>
    if event = TCP_EVENT_CLOSE then .TCP_LAST_ACK else s
  | .TCP_LAST_ACK =>
    if event = TCP_EVENT_ACK_RECV then .TCP_CLOSED else s
  | .TCP_CLOSING =>
    if event = TCP_EVENT_ACK_RECV then .TCP_TIME_WAIT else s
  | .TCP_TIME_WAIT =>
    if event = TCP_EVENT_TIMEOUT then .TCP_CLOSED else s

/-! ## Simulated packets (socket_internal.h, socket_utils.c, tcp_protocol.c)

Only the header fields the delivery path reads are carried; cosmetic fields
(total_len, ttl, id, urgent pointer) are never consulted and are omitted. -/

structure Packet where
  ip_src : Nat
  ip_dst : Nat
  ip_protocol : Nat
  src_port : Nat
  dst_port : Nat
  seq_num : Nat
  ack_num : Nat
  flags : Nat
  window : Nat
  checksum : Nat
  data : List Nat
deriving DecidableEq, Repr

/- tcp_checksum is the stand-in constant of tcp_protocol.c. -/
def tcp_checksum_val : Nat := 0x1234

def apply_tcp_event (m : Manager) (j : Nat) (event : Nat) : Manager :=
  updateSock m j (fun s => { s with tcp_state := tcp_state_transition s.tcp_state event })

/- packet_send / tcp_process_packet / tcp_send_ack form a call cycle in the C
   code (SYN and FIN handling sends an ACK, which is itself a packet); the
   cycle is bounded because an ACK-only packet triggers no further send.  An
   explicit fuel bounds the recursion; every theorem uses fuel 8, far above
   the maximal real depth of 2. -/
/- The ACK-flag block of tcp_process_packet (no further packet is sent). -/
def tcp_process_ack_step (m : Manager) (j : Nat) (pkt : Packet) : Manager :=
  if pkt.flags &&& TCP_FLAG_ACK ≠ 0 then
    match m.socket_list[j]? with
    | some s1 =>
      if s1.tcp_state = TcpState.TCP_SYN_SENT then
        apply_tcp_event m j TCP_EVENT_SYN_ACK_RECV
      else if s1.tcp_state = TcpState.TCP_SYN_RECV then
        apply_tcp_event m j TCP_EVENT_ACK_RECV
      else m
    | none => m
  else m

/- The payload-copy block of tcp_process_packet. -/
def tcp_process_data_step (m : Manager) (j : Nat) (pkt : Packet) : Manager :=
  if pkt.data.length ≠ 0 then
    match m.socket_list[j]? with
    | some s3 =>
      if s3.recv_buf_size - s3.recv_buf.length > 0 then
        setSock m j { s3 with recv_buf := s3.recv_buf ++ pkt.data.take (min pkt.data.length (s3.recv_buf_size - s3.recv_buf.length)) }
      else m
    | none => m
  else m

/- tcp_send_ack, parameterised by the packet sender so that the
   packet_send / tcp_process_packet / tcp_send_ack call cycle of the C code
   becomes structural recursion on the fuel (see packet_send below). -/
def tcp_send_ack_with (ps : Manager → Packet → Manager × Int) (m : Manager)
    (j : Nat) : Manager × Int :=
  match m.socket_list[j]? with
  | none => (m, -1)
  | some sock =>
    match ps m
      { ip_src := sock.local_addr.sin_addr, ip_dst := sock.peer_addr.sin_addr,
        ip_protocol := IPPROTO_TCP,
        src_port := sock.local_addr.sin_port, dst_port := sock.peer_addr.sin_port,
        seq_num := mysocket_htonl 1000, ack_num := mysocket_htonl 1001,
        flags := TCP_FLAG_ACK, window := mysocket_htons 8192,
        checksum := tcp_checksum_val, data := [] } with
    | (m1, res) => if res < 0 then (m1, -1) else (m1, 0)

/- The SYN-flag block: in LISTEN the socket transitions and answers with an
   ACK packet.  entry_tcp is the tcp_state read at function entry. -/
def tcp_process_syn_step_with (ack : Manager → Nat → Manager × Int)
    (m : Manager) (j : Nat) (pkt : Packet) (entry_tcp : TcpState) : Manager :=
  if pkt.flags &&& TCP_FLAG_SYN ≠ 0 ∧ entry_tcp = TcpState.TCP_LISTEN then
    (ack (apply_tcp_event m j TCP_EVENT_SYN_RECV) j).1
  else m

/- The FIN-flag block: transition and answer with an ACK packet. -/
def tcp_process_fin_step_with (ack : Manager → Nat → Manager × Int)
    (m : Manager) (j : Nat) (pkt : Packet) : Manager :=
  if pkt.flags &&& TCP_FLAG_FIN ≠ 0 then
    (ack (apply_tcp_event m j TCP_EVENT_FIN_RECV) j).1
  else m

/- tcp_process_packet runs the four blocks of the C function in order; the
   SYN block tests the tcp_state read at entry, the later blocks re-read the
   (possibly mutated) socket. -/
def tcp_process_packet_with (ack : Manager → Nat → Manager × Int)
    (m : Manager) (j : Nat) (pkt : Packet) : Manager × Int :=
  match m.socket_list[j]? with
  | none => (m, -1)
  | some sock =>
    if pkt.dst_port ≠ sock.local_addr.sin_port then (m, -1)
    else
      (tcp_process_data_step
        (tcp_process_fin_step_with ack
          (tcp_process_ack_step
            (tcp_process_syn_step_with ack m j pkt sock.tcp_state) j pkt) j pkt)
        j pkt, 0)

/- packet_send: delivery to the first registry entry whose local address
   matches, else simulated loss (-1).  The call cycle
   packet_send → tcp_process_packet → tcp_send_ack → packet_send of the C
   code is bounded (an ACK-only packet triggers no further send); an explicit
   fuel bounds it here, and every theorem uses fuel 8, far above the maximal
   real depth of 2. -/
def packet_send : Nat → Manager → Packet → Manager × Int
  | 0, m, _ => (m, -1)
  | fuel + 1, m, pkt =>
    match socket_find_by_address m ⟨AF_INET, pkt.dst_port, pkt.ip_dst⟩ with
    | some j =>
      if pkt.ip_protocol = IPPROTO_TCP then
        ((tcp_process_packet_with (tcp_send_ack_with (packet_send fuel)) m j pkt).1, 0)
      else (m, 0)
    | none => (m, -1)

def tcp_send_ack (fuel : Nat) : Manager → Nat → Manager × Int :=
  tcp_send_ack_with (packet_send fuel)

def tcp_process_packet (fuel : Nat) (m : Manager) (j : Nat) (pkt : Packet) :
    Manager × Int :=
  tcp_process_packet_with (tcp_send_ack fuel) m j pkt

/-! ## Send path (socket_sendrecv.c, tcp_protocol.c) -/

/- tcp_send_data; r is unused because the data packet uses fixed placeholder
   sequence numbers (3000/3001) in the C code. -/
def tcp_send_data (fuel : Nat) (m : Manager) (i : Nat) (data : List Nat) :
    Manager × Int :=
  match m.socket_list[i]? with
  | none => (m, -1)
  | some sock =>
    if data.length = 0 then (m, -1)
    else
      match packet_send fuel m
        { ip_src := sock.local_addr.sin_addr, ip_dst := sock.peer_addr.sin_addr,
          ip_protocol := IPPROTO_TCP,
          src_port := sock.local_addr.sin_port, dst_port := sock.peer_addr.sin_port,
          seq_num := mysocket_htonl 3000, ack_num := mysocket_htonl 3001,
          flags := TCP_FLAG_PSH ||| TCP_FLAG_ACK, window := mysocket_htons 8192,
          checksum := tcp_checksum_val, data := data } with
      | (m1, res) => if res < 0 then (m1, -1) else (m1, 0)

def socket_send_udp_packet (m : Manager) (i : Nat) (data : List Nat) (len : Nat) :
    Manager × Int :=
  match m.socket_list[i]? with
  | none => (m, -1)
  | some sock =>
    if len = 0 then (m, -1)
    else
      match socket_find_udp_receiver m sock.peer_addr with
      | some j =>
        if j ≠ i then
          match m.socket_list[j]? with
          | some target =>
            if target.recv_buf_size - target.recv_buf.length > 0 then
              (setSock m j { target with recv_buf := target.recv_buf ++ data.take (min len (target.recv_buf_size - target.recv_buf.length)) },
               (len : Int))
            else (m, (len : Int))
          | none => (m, (len : Int))
        else (m, (len : Int))
      | none => (m, (len : Int))

def socket_flush_send_buffer (fuel : Nat) (m : Manager) (i : Nat) : Manager × Int :=
  match m.socket_list[i]? with
  | none => (m, 0)
  | some sock =>
    if sock.send_buf.length = 0 then (m, 0)
    else if sock.protocol = IPPROTO_TCP then
      match tcp_send_data fuel m i sock.send_buf with
      | (m1, r) =>
        if r < 0 then (m1, -1)
        else (updateSock m1 i (fun s => { s with send_buf := [] }), 0)
    else if sock.protocol = IPPROTO_UDP then
      match socket_send_udp_packet m i sock.send_buf sock.send_buf.length with
      | (m1, r) =>
        if r < 0 then (m1, -1)
        else (updateSock m1 i (fun s => { s with send_buf := [] }), 0)
    else (updateSock m i (fun s => { s with send_buf := [] }), 0)

/- mysocket_send; `data` carries the len bytes at buf, so len = data.length;
   the NULL-buf check coincides with the len == 0 check for our model. -/
def mysocket_send (fuel : Nat) (m : Manager) (sockfd : Nat) (data : List Nat) :
    CallResult :=
  match socket_find_by_fd m sockfd with
  | none => ⟨m, -1, some MYSOCKET_EINVAL⟩
  | some (i, sock) =>
    if data.length = 0 then ⟨m, -1, some MYSOCKET_EINVAL⟩
    else if sock.state ≠ SockState.SS_CONNECTED then ⟨m, -1, some MYSOCKET_EINVAL⟩
    else if sock.send_buf_size - sock.send_buf.length = 0 then
      ⟨m, -1, some MYSOCKET_EAGAIN⟩
    else
      match socket_buffer_write sock.send_buf sock.send_buf_size data
        (min data.length (sock.send_buf_size - sock.send_buf.length)) with
      | (newbuf, written) =>
        if written < 0 then ⟨m, -1, some MYSOCKET_ERROR⟩
        else
          match socket_flush_send_buffer fuel (setSock m i { sock with send_buf := newbuf }) i with
          | (m2, fr) =>
            if fr < 0 then ⟨m2, -1, some MYSOCKET_ERROR⟩
            else ⟨m2, written, none⟩

/- The send buffer contents after mysocket_send accepts `data` (the tail
   truncated to the space available on entry). -/
def sendBufAfterWrite (sock : MySock) (data : List Nat) : List Nat :=
  sock.send_buf ++
    data.take (min data.length (sock.send_buf_size - sock.send_buf.length))

/-! ## Connect path (socket_accept_connect.c, tcp_protocol.c) -/

def tcp_send_syn (fuel : Nat) (m : Manager) (i : Nat) (r : Nat) : Manager × Int :=
  match m.socket_list[i]? with
  | none => (m, -1)
  | some sock =>
    match packet_send fuel m
      { ip_src := sock.local_addr.sin_addr, ip_dst := sock.peer_addr.sin_addr,
        ip_protocol := IPPROTO_TCP,
        src_port := sock.local_addr.sin_port, dst_port := sock.peer_addr.sin_port,
        seq_num := mysocket_htonl (r % 4294967296), ack_num := 0,
        flags := TCP_FLAG_SYN, window := mysocket_htons 8192,
        checksum := tcp_checksum_val, data := [] } with
    | (m1, res) => if res < 0 then (m1, -1) else (m1, 0)

/- socket_simulate_tcp_handshake reads but never writes (the nanosleep is
   dropped). -/
def socket_simulate_tcp_handshake (m : Manager) (i : Nat) : Int :=
  match m.socket_list[i]? with
  | none => -1
  | some sock =>
    if sock.peer_addr.sin_addr = 0 ∨ sock.peer_addr.sin_port = 0 then -1
    else
      match socket_find_listening_socket m sock.peer_addr with
      | none => -1
      | some _ => 0

/- socket_auto_bind: the static next_port cursor is threaded explicitly; it
   is a uint16_t, so the `> 65535` reset in the C source is dead code and the
   increment wraps mod 65536.  On success the bound address is installed and
   the advanced cursor returned; after 1000 failed attempts the call fails
   (the C code also leaves the last tried port in local_addr on failure; no
   claim depends on that residue). -/
def socket_auto_bind_loop (m : Manager) (i : Nat) (sock : MySock) :
    Nat → Nat → Option (Manager × Nat)
  | _, 0 => none
  | cursor, attempts + 1 =>
    if socket_check_addr_in_use m ⟨AF_INET, mysocket_htons (cursor % 65536), 0⟩ sock.fd = false then
      some (setSock m i { sock with local_addr := ⟨AF_INET, mysocket_htons (cursor % 65536), 0⟩ },
            (if (cursor + 1) % 65536 > 65535 then 32768 else (cursor + 1) % 65536))
    else
      socket_auto_bind_loop m i sock
        (if (cursor + 1) % 65536 > 65535 then 32768 else (cursor + 1) % 65536) attempts

def socket_auto_bind (m : Manager) (i : Nat) (cursor : Nat) :
    Option (Manager × Nat) :=
  match m.socket_list[i]? with
  | none => none
  | some sock => socket_auto_bind_loop m i sock cursor 1000

def mysocket_connect (fuel : Nat) (m : Manager) (sockfd : Nat) (addr : AddrIn)
    (addrlen : Nat) (cursor : Nat) (r : Nat) : CallResult × Nat :=
  match socket_find_by_fd m sockfd with
  | none => (⟨m, -1, some MYSOCKET_EINVAL⟩, cursor)
  | some (i, sock) =>
    if addrlen < sizeof_addr_in then (⟨m, -1, some MYSOCKET_EINVAL⟩, cursor)
    else if sock.state ≠ SockState.SS_UNCONNECTED then
      (⟨m, -1, some MYSOCKET_EINVAL⟩, cursor)
    else
      match socket_addr_copy addr addrlen with
      | none => (⟨m, -1, some MYSOCKET_EINVAL⟩, cursor)
      | some pa =>
        match (if sock.local_addr.sin_port = 0 then
                 socket_auto_bind (setSock m i { sock with peer_addr := pa }) i cursor
               else some (setSock m i { sock with peer_addr := pa }, cursor)) with
        | none => (⟨setSock m i { sock with peer_addr := pa }, -1, some MYSOCKET_ERROR⟩, cursor)
        | some (m2, cursor2) =>
          let m3 := updateSock m2 i (fun s => { s with state := SockState.SS_CONNECTING })
          if sock.protocol = IPPROTO_TCP then
            match tcp_send_syn fuel m3 i r with
            | (m4, sres) =>
              if sres < 0 then
                (⟨updateSock m4 i (fun s => { s with state := SockState.SS_UNCONNECTED }),
                  -1, some MYSOCKET_ECONNREFUSED⟩, cursor2)
              else
                let m5 := updateSock m4 i (fun s => { s with tcp_state := TcpState.TCP_SYN_SENT })
                if socket_simulate_tcp_handshake m5 i < 0 then
                  (⟨updateSock m5 i (fun s => { s with state := SockState.SS_UNCONNECTED, tcp_state := TcpState.TCP_CLOSED }),
                    -1, some MYSOCKET_ECONNREFUSED⟩, cursor2)
                else
                  (⟨updateSock m5 i (fun s => { s with state := SockState.SS_CONNECTED, tcp_state := TcpState.TCP_ESTABLISHED }),
                    0, none⟩, cursor2)
          else
            (⟨updateSock m3 i (fun s => { s with state := SockState.SS_CONNECTED }),
              0, none⟩, cursor2)

/-! ## UDP receive path (socket_sendrecv.c) -/

/- socket_recv_udp_packet; the returned quadruple carries the new registry,
   the return count, the source address written through src_addr (none when
   the C code leaves the out-parameter untouched), and the bytes copied into
   the caller's buffer. -/
def socket_recv_udp_packet (m : Manager) (i : Nat) (len : Nat) (r : Nat) :
    Manager × Int × Option AddrIn × List Nat :=
  match m.socket_list[i]? with
  | none => (m, -1, none, [])
  | some sock =>
    if len = 0 then (m, -1, none, [])
    else if sock.recv_buf.length = 0 then (m, 0, none, [])
    else
      (setSock m i { sock with recv_buf := sock.recv_buf.drop (min len sock.recv_buf.length) },
       ((min len sock.recv_buf.length : Nat) : Int),
       some ⟨AF_INET, mysocket_htons (r % 30000 + 32768), mysocket_htonl 0x7F000001⟩,
       sock.recv_buf.take (min len sock.recv_buf.length))

/- mysocket_recvfrom; want_src models `src_addr && addrlen` being non-NULL,
   addrlen_in the incoming *addrlen. -/
def mysocket_recvfrom (m : Manager) (sockfd : Nat) (len : Nat) (want_src : Bool)
    (addrlen_in : Nat) (r : Nat) : CallResult × Option AddrIn × List Nat :=
  match socket_find_by_fd m sockfd with
  | none => (⟨m, -1, some MYSOCKET_EINVAL⟩, none, [])
  | some (i, sock) =>
    if len = 0 then (⟨m, -1, some MYSOCKET_EINVAL⟩, none, [])
    else if sock.type ≠ SOCK_DGRAM then (⟨m, -1, some MYSOCKET_EINVAL⟩, none, [])
    else
      match socket_recv_udp_packet m i len r with
      | (m1, result, srcOpt, bytes) =>
        if result < 0 then (⟨m1, -1, some MYSOCKET_EAGAIN⟩, none, [])
        else
          (⟨m1, result, none⟩,
           (if want_src = true ∧ sizeof_addr_in ≤ addrlen_in then srcOpt else none),
           bytes)


/-! ## Specification transition table (spec.md section 4.5)

spec_tcp_transition is written from the SPEC's words, to be compared with
tcp_state_transition (written from tcp_protocol.c): "CLOSED-LISTEN->LISTEN;
CLOSED-CONNECT->SYN_SENT; LISTEN-SYN_RECV->SYN_RECV;
SYN_SENT-SYN_ACK_RECV->ESTABLISHED; SYN_RECV-ACK_RECV->ESTABLISHED;
ESTABLISHED-FIN_RECV->CLOSE_WAIT; ESTABLISHED-CLOSE->FIN_WAIT1;
FIN_WAIT1-ACK_RECV->FIN_WAIT2; FIN_WAIT1-FIN_RECV->CLOSING;
FIN_WAIT2-FIN_RECV->TIME_WAIT; CLOSE_WAIT-CLOSE->LAST_ACK;
LAST_ACK-ACK_RECV->CLOSED; CLOSING-ACK_RECV->TIME_WAIT;
TIME_WAIT-TIMEOUT->CLOSED"; unlisted pairs are no-ops. -/

def spec_tcp_transition (s : TcpState) (e : Nat) : TcpState :=
  if s = TcpState.TCP_CLOSED ∧ e = TCP_EVENT_LISTEN then TcpState.TCP_LISTEN
  else if s = TcpState.TCP_CLOSED ∧ e = TCP_EVENT_CONNECT then TcpState.TCP_SYN_SENT
  else if s = TcpState.TCP_LISTEN ∧ e = TCP_EVENT_SYN_RECV then TcpState.TCP_SYN_RECV
  else if s = TcpState.TCP_SYN_SENT ∧ e = TCP_EVENT_SYN_ACK_RECV then TcpState.TCP_ESTABLISHED
  else if s = TcpState.TCP_SYN_RECV ∧ e = TCP_EVENT_ACK_RECV then TcpState.TCP_ESTABLISHED
  else if s = TcpState.TCP_ESTABLISHED ∧ e = TCP_EVENT_FIN_RECV then TcpState.TCP_CLOSE_WAIT
  else if s = TcpState.TCP_ESTABLISHED ∧ e = TCP_EVENT_CLOSE then TcpState.TCP_FIN_WAIT1
  else if s = TcpState.TCP_FIN_WAIT1 ∧ e = TCP_EVENT_ACK_RECV then TcpState.TCP_FIN_WAIT2
  else if s = TcpState.TCP_FIN_WAIT1 ∧ e = TCP_EVENT_FIN_RECV then TcpState.TCP_CLOSING
  else if s = TcpState.TCP_FIN_WAIT2 ∧ e = TCP_EVENT_FIN_RECV then TcpState.TCP_TIME_WAIT
  else if s = TcpState.TCP_CLOSE_WAIT ∧ e = TCP_EVENT_CLOSE then TcpState.TCP_LAST_ACK
  else if s = TcpState.TCP_LAST_ACK ∧ e = TCP_EVENT_ACK_RECV then TcpState.TCP_CLOSED
  else if s = TcpState.TCP_CLOSING ∧ e = TCP_EVENT_ACK_RECV then TcpState.TCP_TIME_WAIT
  else if s = TcpState.TCP_TIME_WAIT ∧ e = TCP_EVENT_TIMEOUT then TcpState.TCP_CLOSED
  else s

/-! ## Concrete registry states used by counterexamples and witnesses -/

/- The record socket_create initialises (socket_core.c): unconnected,
   TCP_CLOSED, zero addresses of the socket's family, empty 8192-byte
   buffers, no listen queue. -/
def socket_create_record (fd domain ty proto : Nat) : MySock :=
  { fd := fd, family := domain, type := ty, protocol := proto,
    state := SockState.SS_UNCONNECTED, tcp_state := TcpState.TCP_CLOSED,
    local_addr := ⟨domain, 0, 0⟩, peer_addr := ⟨domain, 0, 0⟩,
    send_buf := [], send_buf_size := DEFAULT_SEND_BUFFER_SIZE,
    recv_buf := [], recv_buf_size := DEFAULT_RECV_BUFFER_SIZE,
    listen_queue := [], listen_backlog := 0 }

/- C1: fd 3 bound to 127.0.0.1:8080 (network order), fd 4 fresh. -/
def bindFixSock1 : MySock :=
  { socket_create_record 3 AF_INET SOCK_STREAM IPPROTO_TCP with
    local_addr := ⟨AF_INET, mysocket_htons 8080, mysocket_inet_addr "127.0.0.1"⟩ }

def bindFixSock2 : MySock := socket_create_record 4 AF_INET SOCK_STREAM IPPROTO_TCP

def bindFixMgr : Manager := ⟨[bindFixSock1, bindFixSock2], 5⟩

/- C2: a connected TCP socket whose peer address matches no registry entry,
   and the same situation for a UDP socket. -/
def sendTcpFixSock : MySock :=
  { socket_create_record 3 AF_INET SOCK_STREAM IPPROTO_TCP with
    state := SockState.SS_CONNECTED,
    local_addr := ⟨AF_INET, mysocket_htons 5555, 0⟩,
    peer_addr := ⟨AF_INET, mysocket_htons 9090, mysocket_inet_addr "127.0.0.1"⟩ }

def sendTcpFixMgr : Manager := ⟨[sendTcpFixSock], 4⟩

def sendUdpFixSock : MySock :=
  { socket_create_record 3 AF_INET SOCK_DGRAM IPPROTO_UDP with
    state := SockState.SS_CONNECTED,
    local_addr := ⟨AF_INET, mysocket_htons 5555, 0⟩,
    peer_addr := ⟨AF_INET, mysocket_htons 9090, mysocket_inet_addr "127.0.0.1"⟩ }

def sendUdpFixMgr : Manager := ⟨[sendUdpFixSock], 4⟩

/- C4: an unconnected bound TCP socket; no listener anywhere. -/
def connFixSock : MySock :=
  { socket_create_record 3 AF_INET SOCK_STREAM IPPROTO_TCP with
    local_addr := ⟨AF_INET, mysocket_htons 5555, 0⟩ }

def connFixMgr : Manager := ⟨[connFixSock], 4⟩

def connFixTarget : AddrIn :=
  ⟨AF_INET, mysocket_htons 7777, mysocket_inet_addr "127.0.0.1"⟩

/- C5: a bound stream socket about to listen. -/
def listenFixSock : MySock :=
  { socket_create_record 3 AF_INET SOCK_STREAM IPPROTO_TCP with
    local_addr := ⟨AF_INET, mysocket_htons 8081, 0⟩ }

def listenFixMgr : Manager := ⟨[listenFixSock], 4⟩

/- C9: a connected TCP socket with an 8-byte send buffer (producible through
   socket_buffer_resize) whose peer matches no entry; after a failed send
   left 5 bytes buffered, a matching destination (fd 4) is added. -/
def nineFixSockA : MySock :=
  { socket_create_record 3 AF_INET SOCK_STREAM IPPROTO_TCP with
    state := SockState.SS_CONNECTED,
    send_buf_size := 8,
    local_addr := ⟨AF_INET, mysocket_htons 5555, 0⟩,
    peer_addr := ⟨AF_INET, mysocket_htons 9090, mysocket_inet_addr "127.0.0.1"⟩ }

def nineFixMgr1 : Manager := ⟨[nineFixSockA], 4⟩

def nineFixSockA2 : MySock := { nineFixSockA with send_buf := [1, 2, 3, 4, 5] }

def nineFixTarget : MySock :=
  { socket_create_record 4 AF_INET SOCK_STREAM IPPROTO_TCP with
    local_addr := ⟨AF_INET, mysocket_htons 9090, 0⟩ }

def nineFixMgr2 : Manager := ⟨[nineFixSockA2, nineFixTarget], 5⟩

/- C10: a bound UDP socket with three buffered bytes. -/
def recvFixSock : MySock :=
  { socket_create_record 3 AF_INET SOCK_DGRAM IPPROTO_UDP with
    local_addr := ⟨AF_INET, mysocket_htons 8083, 0⟩,
    recv_buf := [80, 73, 78] }

def recvFixMgr : Manager := ⟨[recvFixSock], 4⟩

/- Pointwise shape preservation between two registries. -/
def shapePreserved (m m' : Manager) : Prop :=
  (∀ k : Nat, (m'.socket_list[k]?).map sockShape = (m.socket_list[k]?).map sockShape) ∧
  (∀ (k : Nat) (s s' : MySock), m.socket_list[k]? = some s → m'.socket_list[k]? = some s' →
     s.tcp_state = TcpState.TCP_CLOSED → s'.tcp_state = TcpState.TCP_CLOSED)

/-! ## Lemma development -/

/-! ### Arithmetic characterisation of the swaps -/

lemma and_255_eq_mod (x : Nat) : x &&& 255 = x % 256 := by
  have h := Nat.and_pow_two_sub_one_eq_mod x 8
  norm_num at h
  exact h

lemma lor_eq_add {i : Nat} (a b : Nat) (ha : a % 2 ^ i = 0) (hb : b < 2 ^ i) :
    a ||| b = a + b := by
  obtain ⟨c, rfl⟩ := Nat.dvd_of_mod_eq_zero ha
  exact (Nat.mul_add_lt_is_or hb c).symm

lemma mysocket_htons_eq (x : Nat) :
    mysocket_htons x = x % 256 * 256 + x / 256 % 256 := by
  unfold mysocket_htons
  rw [and_255_eq_mod, and_255_eq_mod, Nat.shiftLeft_eq, Nat.shiftRight_eq_div_pow]
  norm_num
  rw [@lor_eq_add 8 _ _ (by omega) (by omega)]

lemma byte_unpack16 (u v : Nat) (hu : u < 256) (hv : v < 256) :
    (u * 256 + v) % 256 = v ∧ (u * 256 + v) / 256 % 256 = u := by
  omega

lemma hton16_involution {x : Nat} (hx : x < 65536) :
    mysocket_htons (mysocket_htons x) = x := by
  rw [mysocket_htons_eq, mysocket_htons_eq]
  obtain ⟨h1, h2⟩ := byte_unpack16 (x % 256) (x / 256 % 256)
    (Nat.mod_lt _ (by norm_num)) (Nat.mod_lt _ (by norm_num))
  rw [h1, h2]
  clear h1 h2
  omega

lemma mysocket_htonl_eq (x : Nat) :
    mysocket_htonl x =
      x % 256 * 16777216 + x / 256 % 256 * 65536 +
      x / 65536 % 256 * 256 + x / 16777216 % 256 := by
  unfold mysocket_htonl
  rw [and_255_eq_mod, and_255_eq_mod, and_255_eq_mod, and_255_eq_mod]
  simp only [Nat.shiftLeft_eq, Nat.shiftRight_eq_div_pow]
  norm_num
  have e1 : x % 256 * 16777216 ||| x / 256 % 256 * 65536 =
      x % 256 * 16777216 + x / 256 % 256 * 65536 :=
    @lor_eq_add 24 _ _ (by omega) (by omega)
  rw [e1]
  have e2 : x % 256 * 16777216 + x / 256 % 256 * 65536 ||| x / 65536 % 256 * 256 =
      x % 256 * 16777216 + x / 256 % 256 * 65536 + x / 65536 % 256 * 256 :=
    @lor_eq_add 16 _ _ (by omega) (by omega)
  rw [e2]
  exact @lor_eq_add 8 _ _ (by omega) (by omega)

lemma mysocket_ntohl_eq (x : Nat) :
    mysocket_ntohl x =
      x % 256 * 16777216 + x / 256 % 256 * 65536 +
      x / 65536 % 256 * 256 + x / 16777216 % 256 :=
  mysocket_htonl_eq x

lemma byte_unpack32 (a b c d : Nat) (ha : a < 256) (hb : b < 256) (hc : c < 256)
    (hd : d < 256) :
    (a * 16777216 + b * 65536 + c * 256 + d) % 256 = d ∧
    (a * 16777216 + b * 65536 + c * 256 + d) / 256 % 256 = c ∧
    (a * 16777216 + b * 65536 + c * 256 + d) / 65536 % 256 = b ∧
    (a * 16777216 + b * 65536 + c * 256 + d) / 16777216 % 256 = a := by
  omega

lemma hton32_involution {x : Nat} (hx : x < 4294967296) :
    mysocket_ntohl (mysocket_htonl x) = x := by
  rw [mysocket_htonl_eq, mysocket_ntohl_eq]
  obtain ⟨h1, h2, h3, h4⟩ := byte_unpack32 (x % 256) (x / 256 % 256)
    (x / 65536 % 256) (x / 16777216 % 256)
    (Nat.mod_lt _ (by norm_num)) (Nat.mod_lt _ (by norm_num))
    (Nat.mod_lt _ (by norm_num)) (Nat.mod_lt _ (by norm_num))
  rw [h1, h2, h3, h4]
  clear h1 h2 h3 h4
  omega

lemma ntoh32_involution {x : Nat} (hx : x < 4294967296) :
    mysocket_htonl (mysocket_ntohl x) = x :=
  hton32_involution hx

/-! ### Correctness of the decimal rendering and the scanner on canonical input -/

lemma digChar_toNat {d : Nat} (h : d < 10) : (digChar d).toNat = 48 + d := by
  interval_cases d <;> rfl

lemma isDig_digChar {d : Nat} (h : d < 10) : isDig (digChar d) = true := by
  interval_cases d <;> decide

lemma decReprCore_eq_digits : ∀ fuel n, n ≤ fuel →
    decReprCore fuel n = (Nat.digits 10 n).reverse.map digChar := by
  intro fuel
  induction fuel with
  | zero =>
    intro n hn
    have : n = 0 := Nat.le_zero.mp hn
    subst this
    simp [decReprCore]
  | succ fuel ih =>
    intro n hn
    by_cases h0 : n = 0
    · subst h0
      simp [decReprCore]
    · have hlt : n / 10 ≤ fuel := by
        have := Nat.div_lt_self (Nat.pos_of_ne_zero h0) (by norm_num : 1 < 10)
        omega
      rw [decReprCore, if_neg h0, ih _ hlt,
        Nat.digits_def' (by norm_num : 1 < 10) (Nat.pos_of_ne_zero h0)]
      simp

lemma decRepr_eq (n : Nat) :
    decRepr n = if n = 0 then ['0'] else (Nat.digits 10 n).reverse.map digChar := by
  unfold decRepr
  by_cases h : n = 0
  · simp [h]
  · rw [if_neg h, if_neg h, decReprCore_eq_digits n n le_rfl]

lemma decRepr_all_isDig (n : Nat) : ∀ c ∈ decRepr n, isDig c = true := by
  rw [decRepr_eq]
  by_cases h : n = 0
  · simp [h]
    decide
  · rw [if_neg h]
    intro c hc
    simp only [List.mem_map, List.mem_reverse] at hc
    obtain ⟨d, hd, rfl⟩ := hc
    exact isDig_digChar (Nat.digits_lt_base (by norm_num) hd)

lemma decRepr_ne_nil (n : Nat) : decRepr n ≠ [] := by
  rw [decRepr_eq]
  by_cases h : n = 0
  · simp [h]
  · rw [if_neg h]
    simp [Nat.digits_ne_nil_iff_ne_zero.mpr h]

lemma foldl_map_digChar : ∀ (ds : List Nat) (acc : Nat), (∀ d ∈ ds, d < 10) →
    (ds.map digChar).foldl (fun a c => a * 10 + (c.toNat - 48)) acc =
      ds.foldl (fun a d => a * 10 + d) acc := by
  intro ds
  induction ds with
  | nil => intro acc _; rfl
  | cons d t ih =>
    intro acc hall
    have hd : d < 10 := hall d (List.mem_cons_self d t)
    simp only [List.map_cons, List.foldl_cons]
    rw [digChar_toNat hd, Nat.add_sub_cancel_left]
    exact ih _ (fun x hx => hall x (List.mem_cons_of_mem _ hx))

lemma foldl_digits_eq_ofDigits : ∀ (ds : List Nat) (acc : Nat),
    ds.foldl (fun a d => a * 10 + d) acc =
      acc * 10 ^ ds.length + Nat.ofDigits 10 ds.reverse := by
  intro ds
  induction ds with
  | nil => intro acc; simp [Nat.ofDigits]
  | cons d t ih =>
    intro acc
    simp only [List.foldl_cons, List.reverse_cons, List.length_cons]
    rw [ih, Nat.ofDigits_append]
    simp only [Nat.ofDigits_cons, Nat.ofDigits_nil, List.length_reverse]
    ring

lemma charsToNat_decRepr (n : Nat) : charsToNat (decRepr n) = n := by
  rw [decRepr_eq]
  by_cases h : n = 0
  · simp [h]
    decide
  · rw [if_neg h]
    unfold charsToNat
    rw [foldl_map_digChar _ _ (fun d hd => by
      simp only [List.mem_reverse] at hd
      exact Nat.digits_lt_base (by norm_num) hd)]
    rw [foldl_digits_eq_ofDigits]
    simp [List.reverse_reverse, Nat.ofDigits_digits]

lemma takeWhile_dropWhile_append {p : Char → Bool} :
    ∀ (l r : List Char), (∀ c ∈ l, p c = true) →
    (∀ c, r.head? = some c → p c = false) →
    (l ++ r).takeWhile p = l ∧ (l ++ r).dropWhile p = r := by
  intro l
  induction l with
  | nil =>
    intro r _ hr
    match r with
    | [] => simp
    | c :: r' => simp [List.takeWhile_cons, List.dropWhile_cons, hr c rfl]
  | cons c l' ih =>
    intro r hl hr
    have hc : p c = true := hl c (List.mem_cons_self c l')
    have := ih r (fun x hx => hl x (List.mem_cons_of_mem _ hx)) hr
    simp [List.takeWhile_cons, List.dropWhile_cons, hc, this.1, this.2]

lemma isSpc_of_isDig {c : Char} (h : isDig c = true) : isSpc c = false := by
  unfold isDig at h
  simp only [Bool.and_eq_true, decide_eq_true_eq] at h
  have h1 : c.toNat ≠ 32 := by omega
  have h2 : ¬(c.toNat ≤ 13) := by omega
  simp [isSpc, h1, h2]

lemma isDig_ne_signs {c : Char} (h : isDig c = true) : c ≠ '-' ∧ c ≠ '+' := by
  constructor <;> rintro rfl <;> simp [isDig] at h

lemma scanUInt_canon (n : Nat) (rest : List Char) (hn : n < 4294967296)
    (hrest : ∀ c, rest.head? = some c → isDig c = false) :
    scanUInt (decRepr n ++ rest) = some (n, rest) := by
  rcases hrep : decRepr n with _ | ⟨c0, t⟩
  · exact absurd hrep (decRepr_ne_nil n)
  have hall : ∀ c ∈ decRepr n, isDig c = true := decRepr_all_isDig n
  have hc0 : isDig c0 = true := hall c0 (by rw [hrep]; exact List.mem_cons_self _ _)
  have hspc : isSpc c0 = false := isSpc_of_isDig hc0
  have hsign := isDig_ne_signs hc0
  have htd := takeWhile_dropWhile_append (decRepr n) rest hall hrest
  rw [hrep] at htd
  simp only [List.cons_append] at htd
  unfold scanUInt
  simp only [List.cons_append, List.dropWhile_cons, hspc, Bool.false_eq_true, if_false]
  simp only [scanSign, if_neg hsign.1, if_neg hsign.2]
  unfold scanDigits
  rw [htd.1, htd.2]
  rw [if_neg (show ¬(c0 :: t = []) by simp)]
  rw [← hrep, charsToNat_decRepr, Nat.mod_eq_of_lt hn]
  simp

lemma head_dot_not_dig (r : List Char) :
    ∀ c : Char, ('.' :: r).head? = some c → isDig c = false := by
  intro c hc
  simp only [List.head?_cons, Option.some.injEq] at hc
  subst hc
  decide

lemma scanQuad_canon (a b c d : Nat) (_ha : a < 256) (hb : b < 256) (hc : c < 256)
    (hd : d < 256) : scanQuad (canonQuad a b c d) = some (a, b, c, d) := by
  unfold canonQuad scanQuad
  rw [scanUInt_canon a ('.' :: (decRepr b ++ ('.' :: (decRepr c ++ ('.' :: decRepr d)))))
    (by omega) (head_dot_not_dig _)]
  simp only []
  rw [scanUInt_canon b ('.' :: (decRepr c ++ ('.' :: decRepr d))) (by omega)
    (head_dot_not_dig _)]
  simp only []
  rw [scanUInt_canon c ('.' :: decRepr d) (by omega) (head_dot_not_dig _)]
  simp only []
  rw [show decRepr d = decRepr d ++ ([] : List Char) by simp]
  rw [scanUInt_canon d [] (by omega) (fun c h => by simp at h)]

lemma pack_quad_eq (a b c d : Nat) (ha : a < 256) (hb : b < 256) (hc : c < 256)
    (hd : d < 256) :
    (a <<< 24) ||| (b <<< 16) ||| (c <<< 8) ||| d =
      a * 16777216 + b * 65536 + c * 256 + d := by
  simp only [Nat.shiftLeft_eq]
  norm_num
  have e1 : a * 16777216 ||| b * 65536 = a * 16777216 + b * 65536 :=
    @lor_eq_add 24 _ _ (by omega) (by omega)
  rw [e1]
  have e2 : a * 16777216 + b * 65536 ||| c * 256 =
      a * 16777216 + b * 65536 + c * 256 :=
    @lor_eq_add 16 _ _ (by omega) (by omega)
  rw [e2]
  exact @lor_eq_add 8 _ _ (by omega) (by omega)

lemma inet_addr_canon (a b c d : Nat) (ha : a < 256) (hb : b < 256) (hc : c < 256)
    (hd : d < 256) :
    mysocket_inet_addr (String.mk (canonQuad a b c d)) =
      mysocket_htonl (a * 16777216 + b * 65536 + c * 256 + d) := by
  unfold mysocket_inet_addr
  rw [show (String.mk (canonQuad a b c d)).data = canonQuad a b c d from rfl]
  rw [scanQuad_canon a b c d ha hb hc hd]
  simp only []
  rw [if_neg (by omega)]
  rw [pack_quad_eq a b c d ha hb hc hd]

lemma inet_ntoa_pack (a b c d : Nat) (ha : a < 256) (hb : b < 256) (hc : c < 256)
    (hd : d < 256) :
    mysocket_inet_ntoa (mysocket_htonl (a * 16777216 + b * 65536 + c * 256 + d)) =
      String.mk (canonQuad a b c d) := by
  have hE : mysocket_ntohl (mysocket_htonl (a * 16777216 + b * 65536 + c * 256 + d)) =
      a * 16777216 + b * 65536 + c * 256 + d :=
    hton32_involution (by omega)
  unfold mysocket_inet_ntoa
  rw [hE]
  obtain ⟨h1, h2, h3, h4⟩ := byte_unpack32 a b c d ha hb hc hd
  simp only [Nat.shiftRight_eq_div_pow]
  norm_num
  rw [and_255_eq_mod, and_255_eq_mod, and_255_eq_mod, and_255_eq_mod, h1, h2, h3, h4]
  rfl

lemma inet_roundtrip (a b c d : Nat) (ha : a < 256) (hb : b < 256) (hc : c < 256)
    (hd : d < 256) :
    mysocket_inet_ntoa (mysocket_inet_addr (String.mk (canonQuad a b c d))) =
      String.mk (canonQuad a b c d) := by
  rw [inet_addr_canon a b c d ha hb hc hd, inet_ntoa_pack a b c d ha hb hc hd]

/-! ### Registry and packet-path lemmas -/

lemma setSock_length (m : Manager) (i : Nat) (s : MySock) :
    (setSock m i s).socket_list.length = m.socket_list.length := by
  simp [setSock]

lemma updateSock_length (m : Manager) (i : Nat) (f : MySock → MySock) :
    (updateSock m i f).socket_list.length = m.socket_list.length := by
  unfold updateSock
  cases m.socket_list[i]? <;> simp [setSock]

lemma socket_find_by_fd_spec {m : Manager} {fd : Nat} {i : Nat} {sock : MySock}
    (h : socket_find_by_fd m fd = some (i, sock)) :
    m.socket_list[i]? = some sock ∧ i < m.socket_list.length := by
  unfold socket_find_by_fd at h
  rcases h1 : m.socket_list.findIdx? (fun s => s.fd == fd) with _ | j
  · rw [h1] at h; simp at h
  · rw [h1] at h
    simp only [] at h
    rcases h2 : m.socket_list[j]? with _ | s
    · rw [h2] at h; simp at h
    · rw [h2] at h
      simp only [] at h
      simp only [Option.some.injEq, Prod.mk.injEq] at h
      obtain ⟨rfl, rfl⟩ := h
      exact ⟨h2, (List.getElem?_eq_some.mp h2).1⟩

/- findIdx? only looks at the image of each element under f, with an arbitrary
   start accumulator. -/
lemma findIdx?_map_congr {α β : Type} (f : α → β) (q : β → Bool) :
    ∀ (l l' : List α) (start : Nat),
      (∀ k : Nat, l'[k]?.map f = l[k]?.map f) →
      List.findIdx? (fun x => q (f x)) l' start =
        List.findIdx? (fun x => q (f x)) l start := by
  intro l
  induction l with
  | nil =>
    intro l' start h
    cases l' with
    | nil => rfl
    | cons x xs => have := h 0; simp at this
  | cons x xs ih =>
    intro l' start h
    cases l' with
    | nil => have := h 0; simp at this
    | cons y ys =>
      have h0 := h 0
      simp only [List.getElem?_cons_zero, Option.map_some'] at h0
      have hfy : f y = f x := by injection h0
      rw [List.findIdx?_cons, List.findIdx?_cons, hfy]
      by_cases hq : q (f x) = true
      · simp [hq]
      · simp only [hq, Bool.false_eq_true, if_false]
        exact ih ys (start + 1) (fun k => by have := h (k + 1); simpa using this)

lemma shapePreserved_refl (m : Manager) : shapePreserved m m := by
  refine ⟨fun k => rfl, fun k s s' h1 h2 h3 => ?_⟩
  rw [h1] at h2
  injection h2 with h2
  rw [← h2]
  exact h3

lemma shapePreserved_trans {m1 m2 m3 : Manager} (h12 : shapePreserved m1 m2)
    (h23 : shapePreserved m2 m3) : shapePreserved m1 m3 := by
  refine ⟨fun k => (h23.1 k).trans (h12.1 k), fun k s s' h1 h3 hc => ?_⟩
  have hmap := h12.1 k
  rw [h1] at hmap
  rcases h2 : m2.socket_list[k]? with _ | s2
  · rw [h2] at hmap; simp at hmap
  · exact h23.2 k s2 s' h2 h3 (h12.2 k s s2 h1 h2 hc)

lemma shapePreserved_setSock {m : Manager} {i : Nat} {s s' : MySock}
    (h : m.socket_list[i]? = some s) (hsh : sockShape s' = sockShape s)
    (hcl : s.tcp_state = TcpState.TCP_CLOSED → s'.tcp_state = TcpState.TCP_CLOSED) :
    shapePreserved m (setSock m i s') := by
  have hlen : i < m.socket_list.length := (List.getElem?_eq_some.mp h).1
  constructor
  · intro k
    by_cases hk : k = i
    · subst hk
      rw [show (setSock m k s').socket_list = m.socket_list.set k s' from rfl,
        List.getElem?_set_self hlen, h]
      simp [hsh]
    · rw [show (setSock m i s').socket_list = m.socket_list.set i s' from rfl,
        List.getElem?_set_ne (fun he => hk he.symm)]
  · intro k t t' h1 h2 hc
    by_cases hk : k = i
    · subst hk
      rw [show (setSock m k s').socket_list = m.socket_list.set k s' from rfl,
        List.getElem?_set_self hlen] at h2
      rw [h] at h1
      injection h1 with h1
      injection h2 with h2
      subst h1; subst h2
      exact hcl hc
    · rw [show (setSock m i s').socket_list = m.socket_list.set i s' from rfl,
        List.getElem?_set_ne (fun he => hk he.symm)] at h2
      rw [h1] at h2
      injection h2 with h2
      subst h2
      exact hc

lemma tcp_transition_closed_stable {e : Nat} (h1 : e ≠ TCP_EVENT_LISTEN)
    (h2 : e ≠ TCP_EVENT_CONNECT) :
    tcp_state_transition TcpState.TCP_CLOSED e = TcpState.TCP_CLOSED := by
  simp [tcp_state_transition, h1, h2]

lemma shapePreserved_apply_tcp_event {m : Manager} {j e : Nat}
    (h1 : e ≠ TCP_EVENT_LISTEN) (h2 : e ≠ TCP_EVENT_CONNECT) :
    shapePreserved m (apply_tcp_event m j e) := by
  unfold apply_tcp_event updateSock
  rcases h : m.socket_list[j]? with _ | s
  · exact shapePreserved_refl m
  · exact shapePreserved_setSock h rfl
      (fun hc => by
        show tcp_state_transition s.tcp_state e = TcpState.TCP_CLOSED
        rw [hc]; exact tcp_transition_closed_stable h1 h2)

lemma shapePreserved_length {m m' : Manager} (h : shapePreserved m m') :
    m'.socket_list.length = m.socket_list.length := by
  by_contra hne
  rcases Nat.lt_or_ge m'.socket_list.length m.socket_list.length with hlt | hge
  · have h1 : m'.socket_list[m'.socket_list.length]? = none :=
      List.getElem?_eq_none le_rfl
    obtain ⟨y, h2⟩ : ∃ y, m.socket_list[m'.socket_list.length]? = some y := by
      rw [List.getElem?_eq_getElem hlt]
      exact ⟨_, rfl⟩
    have := h.1 m'.socket_list.length
    rw [h1, h2] at this
    simp at this
  · have hlt : m.socket_list.length < m'.socket_list.length := by omega
    have h1 : m.socket_list[m.socket_list.length]? = none :=
      List.getElem?_eq_none le_rfl
    obtain ⟨y, h2⟩ : ∃ y, m'.socket_list[m.socket_list.length]? = some y := by
      rw [List.getElem?_eq_getElem hlt]
      exact ⟨_, rfl⟩
    have := h.1 m.socket_list.length
    rw [h1, h2] at this
    simp at this

lemma shapePreserved_get {m m' : Manager} (h : shapePreserved m m') {k : Nat}
    {s : MySock} (hk : m.socket_list[k]? = some s) :
    ∃ s', m'.socket_list[k]? = some s' ∧ sockShape s' = sockShape s := by
  have hmap := h.1 k
  rw [hk] at hmap
  rcases h2 : m'.socket_list[k]? with _ | s'
  · rw [h2] at hmap; simp at hmap
  · rw [h2] at hmap
    simp only [Option.map_some'] at hmap
    injection hmap with hmap
    exact ⟨s', rfl, hmap⟩

lemma shapePreserved_ack_step (m : Manager) (j : Nat) (pkt : Packet) :
    shapePreserved m (tcp_process_ack_step m j pkt) := by
  unfold tcp_process_ack_step
  split
  · split
    · split
      · exact shapePreserved_apply_tcp_event (by decide) (by decide)
      · split
        · exact shapePreserved_apply_tcp_event (by decide) (by decide)
        · exact shapePreserved_refl m
    · exact shapePreserved_refl m
  · exact shapePreserved_refl m

lemma shapePreserved_data_step (m : Manager) (j : Nat) (pkt : Packet) :
    shapePreserved m (tcp_process_data_step m j pkt) := by
  unfold tcp_process_data_step
  split
  · split
    · rename_i s3 heq
      split
      · exact shapePreserved_setSock heq rfl (fun hc => hc)
      · exact shapePreserved_refl m
    · exact shapePreserved_refl m
  · exact shapePreserved_refl m

lemma shapePreserved_ack_with {ps : Manager → Packet → Manager × Int}
    (hps : ∀ m pkt, shapePreserved m (ps m pkt).1) (m : Manager) (j : Nat) :
    shapePreserved m (tcp_send_ack_with ps m j).1 := by
  unfold tcp_send_ack_with
  split
  · exact shapePreserved_refl m
  · rename_i sock heq
    split
    rename_i m1 res hp
    have hh := hps m
      { ip_src := sock.local_addr.sin_addr, ip_dst := sock.peer_addr.sin_addr,
        ip_protocol := IPPROTO_TCP,
        src_port := sock.local_addr.sin_port, dst_port := sock.peer_addr.sin_port,
        seq_num := mysocket_htonl 1000, ack_num := mysocket_htonl 1001,
        flags := TCP_FLAG_ACK, window := mysocket_htons 8192,
        checksum := tcp_checksum_val, data := [] }
    rw [hp] at hh
    split
    · exact hh
    · exact hh

lemma shapePreserved_syn_step {ack : Manager → Nat → Manager × Int}
    (hack : ∀ m j, shapePreserved m (ack m j).1) (m : Manager) (j : Nat)
    (pkt : Packet) (t : TcpState) :
    shapePreserved m (tcp_process_syn_step_with ack m j pkt t) := by
  unfold tcp_process_syn_step_with
  split
  · exact shapePreserved_trans
      (shapePreserved_apply_tcp_event (by decide) (by decide)) (hack _ j)
  · exact shapePreserved_refl m

lemma shapePreserved_fin_step {ack : Manager → Nat → Manager × Int}
    (hack : ∀ m j, shapePreserved m (ack m j).1) (m : Manager) (j : Nat)
    (pkt : Packet) :
    shapePreserved m (tcp_process_fin_step_with ack m j pkt) := by
  unfold tcp_process_fin_step_with
  split
  · exact shapePreserved_trans
      (shapePreserved_apply_tcp_event (by decide) (by decide)) (hack _ j)
  · exact shapePreserved_refl m

lemma shapePreserved_process_with {ack : Manager → Nat → Manager × Int}
    (hack : ∀ m j, shapePreserved m (ack m j).1) (m : Manager) (j : Nat)
    (pkt : Packet) :
    shapePreserved m (tcp_process_packet_with ack m j pkt).1 := by
  unfold tcp_process_packet_with
  split
  · exact shapePreserved_refl m
  · rename_i sock heq
    split
    · exact shapePreserved_refl m
    · exact shapePreserved_trans (shapePreserved_syn_step hack m j pkt sock.tcp_state)
        (shapePreserved_trans (shapePreserved_ack_step _ j pkt)
          (shapePreserved_trans (shapePreserved_fin_step hack _ j pkt)
            (shapePreserved_data_step _ j pkt)))

lemma shapePreserved_packet_send :
    ∀ (fuel : Nat) (m : Manager) (pkt : Packet),
      shapePreserved m (packet_send fuel m pkt).1 := by
  intro fuel
  induction fuel with
  | zero =>
    intro m pkt
    exact shapePreserved_refl m
  | succ fuel ih =>
    intro m pkt
    simp only [packet_send]
    split
    · split
      · exact shapePreserved_process_with (shapePreserved_ack_with ih) m _ pkt
      · exact shapePreserved_refl m
    · exact shapePreserved_refl m

lemma shapePreserved_tcp_send_data (fuel : Nat) (m : Manager) (i : Nat)
    (data : List Nat) : shapePreserved m (tcp_send_data fuel m i data).1 := by
  unfold tcp_send_data
  split
  · exact shapePreserved_refl m
  · rename_i sock heq
    split
    · exact shapePreserved_refl m
    · split
      rename_i m1 res hp
      have hh := shapePreserved_packet_send fuel m
        { ip_src := sock.local_addr.sin_addr, ip_dst := sock.peer_addr.sin_addr,
          ip_protocol := IPPROTO_TCP,
          src_port := sock.local_addr.sin_port, dst_port := sock.peer_addr.sin_port,
          seq_num := mysocket_htonl 3000, ack_num := mysocket_htonl 3001,
          flags := TCP_FLAG_PSH ||| TCP_FLAG_ACK, window := mysocket_htons 8192,
          checksum := tcp_checksum_val, data := data }
      rw [hp] at hh
      split
      · exact hh
      · exact hh

lemma socket_find_listening_congr {m m' : Manager} (h : shapePreserved m m')
    (addr : AddrIn) :
    socket_find_listening_socket m' addr = socket_find_listening_socket m addr := by
  unfold socket_find_listening_socket
  exact findIdx?_map_congr sockShape
    (fun s => decide (s.state = SockState.SS_LISTENING ∧
      s.local_addr.sin_port = addr.sin_port ∧
      (s.local_addr.sin_addr = 0 ∨ s.local_addr.sin_addr = addr.sin_addr)))
    m.socket_list m'.socket_list 0 h.1

lemma socket_find_by_address_congr {m m' : Manager} (h : shapePreserved m m')
    (addr : AddrIn) :
    socket_find_by_address m' addr = socket_find_by_address m addr := by
  unfold socket_find_by_address
  exact findIdx?_map_congr sockShape
    (fun s => decide (s.local_addr.sin_port = addr.sin_port ∧
      (s.local_addr.sin_addr = 0 ∨ s.local_addr.sin_addr = addr.sin_addr)))
    m.socket_list m'.socket_list 0 h.1

lemma socket_find_udp_receiver_congr {m m' : Manager} (h : shapePreserved m m')
    (addr : AddrIn) :
    socket_find_udp_receiver m' addr = socket_find_udp_receiver m addr := by
  unfold socket_find_udp_receiver
  exact findIdx?_map_congr sockShape
    (fun s => decide (s.type = SOCK_DGRAM ∧
      s.local_addr.sin_port = addr.sin_port ∧
      (s.local_addr.sin_addr = 0 ∨ s.local_addr.sin_addr = addr.sin_addr)))
    m.socket_list m'.socket_list 0 h.1

lemma socket_check_addr_in_use_iff (m : Manager) (addr : AddrIn) (ex : Nat) :
    socket_check_addr_in_use m addr ex = true ↔
      ∃ cur ∈ m.socket_list,
        cur.fd ≠ ex ∧ cur.local_addr.sin_port ≠ 0 ∧
        cur.local_addr.sin_port = addr.sin_port ∧
        (cur.local_addr.sin_addr = 0 ∨ addr.sin_addr = 0 ∨
         cur.local_addr.sin_addr = addr.sin_addr) := by
  unfold socket_check_addr_in_use
  rw [List.any_eq_true]
  constructor
  · rintro ⟨cur, hmem, hdec⟩
    exact ⟨cur, hmem, of_decide_eq_true hdec⟩
  · rintro ⟨cur, hmem, hprop⟩
    exact ⟨cur, hmem, decide_eq_true hprop⟩

/- Fields recoverable from shape equality. -/
lemma sockShape_fields {s s' : MySock} (h : sockShape s' = sockShape s) :
    s'.fd = s.fd ∧ s'.type = s.type ∧ s'.protocol = s.protocol ∧
    s'.state = s.state ∧ s'.local_addr = s.local_addr ∧
    s'.peer_addr = s.peer_addr ∧ s'.send_buf_size = s.send_buf_size ∧
    s'.recv_buf_size = s.recv_buf_size := by
  unfold sockShape at h
  simp only [MySock.mk.injEq, and_true, true_and] at h
  obtain ⟨h1, h2, h3, h4, h5, h6, h7, h8, h9, h10, h11⟩ := h
  exact ⟨h1, h3, h4, h5, h6, h7, h8, h9⟩

lemma scanQuad_canon_rest (a b c d : Nat) (rest : List Char) (ha : a < 256)
    (hb : b < 256) (hc : c < 256) (hd : d < 256)
    (hrest : ∀ ch, rest.head? = some ch → isDig ch = false) :
    scanQuad (canonQuad a b c d ++ rest) = some (a, b, c, d) := by
  unfold canonQuad scanQuad
  simp only [List.append_assoc, List.cons_append]
  rw [scanUInt_canon a
    ('.' :: (decRepr b ++ ('.' :: (decRepr c ++ ('.' :: (decRepr d ++ rest))))))
    (by omega) (head_dot_not_dig _)]
  simp only []
  rw [scanUInt_canon b ('.' :: (decRepr c ++ ('.' :: (decRepr d ++ rest))))
    (by omega) (head_dot_not_dig _)]
  simp only []
  rw [scanUInt_canon c ('.' :: (decRepr d ++ rest)) (by omega) (head_dot_not_dig _)]
  simp only []
  rw [scanUInt_canon d rest (by omega) hrest]

lemma inet_addr_canon_rest (a b c d : Nat) (rest : List Char) (ha : a < 256)
    (hb : b < 256) (hc : c < 256) (hd : d < 256)
    (hrest : ∀ ch, rest.head? = some ch → isDig ch = false) :
    mysocket_inet_addr (String.mk (canonQuad a b c d ++ rest)) =
      mysocket_htonl (a * 16777216 + b * 65536 + c * 256 + d) := by
  unfold mysocket_inet_addr
  rw [show (String.mk (canonQuad a b c d ++ rest)).data = canonQuad a b c d ++ rest
    from rfl]
  rw [scanQuad_canon_rest a b c d rest ha hb hc hd hrest]
  simp only []
  rw [if_neg (by omega)]
  rw [pack_quad_eq a b c d ha hb hc hd]

lemma scanSign_plus (l : List Char) : scanSign ('+' :: l) = (false, l) := by
  unfold scanSign
  simp only []
  rw [if_pos trivial]
  rw [if_neg (show ¬(('+' : Char) = '-') by decide)]

lemma scanSign_digit (c0 : Char) (t : List Char) (hc : isDig c0 = true) :
    scanSign (c0 :: t) = (false, c0 :: t) := by
  have hsign := isDig_ne_signs hc
  unfold scanSign
  simp only []
  rw [if_neg hsign.1, if_neg hsign.2]

lemma scanUInt_cons_plus (c0 : Char) (t : List Char) (hc : isDig c0 = true) :
    scanUInt ('+' :: c0 :: t) = scanUInt (c0 :: t) := by
  have hspc : isSpc c0 = false := isSpc_of_isDig hc
  have e1 : List.dropWhile isSpc ('+' :: c0 :: t) = '+' :: c0 :: t := by
    rw [List.dropWhile_cons]
    simp only [show isSpc '+' = false from by decide, Bool.false_eq_true, if_false]
  have e2 : List.dropWhile isSpc (c0 :: t) = c0 :: t := by
    rw [List.dropWhile_cons]
    simp only [hspc, Bool.false_eq_true, if_false]
  unfold scanUInt
  rw [e1, e2, scanSign_plus, scanSign_digit c0 t hc]

lemma scanUInt_plusIf (f : Bool) (n : Nat) (rest : List Char) (hn : n < 4294967296)
    (hrest : ∀ c, rest.head? = some c → isDig c = false) :
    scanUInt (plusIf f (decRepr n) ++ rest) = some (n, rest) := by
  cases f with
  | false => exact scanUInt_canon n rest hn hrest
  | true =>
    show scanUInt (('+' :: decRepr n) ++ rest) = some (n, rest)
    rcases hrep : decRepr n with _ | ⟨c0, t⟩
    · exact absurd hrep (decRepr_ne_nil n)
    have hc0 : isDig c0 = true :=
      decRepr_all_isDig n c0 (by rw [hrep]; exact List.mem_cons_self _ _)
    simp only [List.cons_append]
    rw [scanUInt_cons_plus c0 (t ++ rest) hc0]
    rw [show c0 :: (t ++ rest) = (c0 :: t) ++ rest from rfl, ← hrep]
    exact scanUInt_canon n rest hn hrest

lemma scanQuad_canonPlus (f1 f2 f3 f4 : Bool) (a b c d : Nat)
    (ha : a < 4294967296) (hb : b < 4294967296) (hc : c < 4294967296)
    (hd : d < 4294967296) :
    scanQuad (canonQuadPlus f1 f2 f3 f4 a b c d) = some (a, b, c, d) := by
  unfold canonQuadPlus scanQuad
  rw [scanUInt_plusIf f1 a
    ('.' :: (plusIf f2 (decRepr b) ++
      ('.' :: (plusIf f3 (decRepr c) ++ ('.' :: plusIf f4 (decRepr d))))))
    ha (head_dot_not_dig _)]
  simp only []
  rw [scanUInt_plusIf f2 b
    ('.' :: (plusIf f3 (decRepr c) ++ ('.' :: plusIf f4 (decRepr d))))
    hb (head_dot_not_dig _)]
  simp only []
  rw [scanUInt_plusIf f3 c ('.' :: plusIf f4 (decRepr d)) hc (head_dot_not_dig _)]
  simp only []
  rw [show plusIf f4 (decRepr d) = plusIf f4 (decRepr d) ++ ([] : List Char) by simp]
  rw [scanUInt_plusIf f4 d [] hd (fun c h => by simp at h)]

lemma inet_addr_canonPlus (f1 f2 f3 f4 : Bool) (a b c d : Nat)
    (ha : a < 256) (hb : b < 256) (hc : c < 256) (hd : d < 256) :
    mysocket_inet_addr (String.mk (canonQuadPlus f1 f2 f3 f4 a b c d)) =
      mysocket_inet_addr (String.mk (canonQuad a b c d)) := by
  unfold mysocket_inet_addr
  rw [show (String.mk (canonQuadPlus f1 f2 f3 f4 a b c d)).data =
    canonQuadPlus f1 f2 f3 f4 a b c d from rfl]
  rw [show (String.mk (canonQuad a b c d)).data = canonQuad a b c d from rfl]
  rw [scanQuad_canonPlus f1 f2 f3 f4 a b c d (by omega) (by omega) (by omega)
    (by omega)]
  rw [scanQuad_canon a b c d ha hb hc hd]

lemma inet_addr_out_of_range (a b c d : Nat)
    (ha : a < 4294967296) (hb : b < 4294967296) (hc : c < 4294967296)
    (hd : d < 4294967296) (hout : 255 < a ∨ 255 < b ∨ 255 < c ∨ 255 < d) :
    mysocket_inet_addr (String.mk (canonQuad a b c d)) = 0 := by
  unfold mysocket_inet_addr
  rw [show (String.mk (canonQuad a b c d)).data = canonQuad a b c d from rfl]
  rw [show canonQuad a b c d = canonQuadPlus false false false false a b c d
    from rfl]
  rw [scanQuad_canonPlus false false false false a b c d ha hb hc hd]
  simp only []
  rw [if_pos hout]

lemma updateSock_get_self {m : Manager} {i : Nat} {t : MySock} (f : MySock → MySock)
    (ht : m.socket_list[i]? = some t) :
    (updateSock m i f).socket_list[i]? = some (f t) := by
  unfold updateSock
  rw [ht]
  exact List.getElem?_set_self (List.getElem?_eq_some.mp ht).1

lemma packet_send_no_match {fuel : Nat} {m : Manager} {pkt : Packet}
    (h : socket_find_by_address m ⟨AF_INET, pkt.dst_port, pkt.ip_dst⟩ = none) :
    packet_send fuel m pkt = (m, -1) := by
  cases fuel with
  | zero => rfl
  | succ f =>
    unfold packet_send
    rw [h]

lemma socket_send_udp_packet_length (m : Manager) (i : Nat) (data : List Nat)
    (len : Nat) :
    (socket_send_udp_packet m i data len).1.socket_list.length =
      m.socket_list.length := by
  unfold socket_send_udp_packet
  split
  · rfl
  · split
    · rfl
    · split
      · split
        · split
          · split
            · exact setSock_length _ _ _
            · rfl
          · rfl
        · rfl
      · rfl

lemma socket_flush_send_buffer_drains {fuel : Nat} {m : Manager} {i : Nat}
    {s : MySock} (hs : m.socket_list[i]? = some s)
    (hfr : 0 ≤ (socket_flush_send_buffer fuel m i).2) :
    ∃ s', (socket_flush_send_buffer fuel m i).1.socket_list[i]? = some s' ∧
      s'.send_buf = [] := by
  have hi : i < m.socket_list.length := (List.getElem?_eq_some.mp hs).1
  unfold socket_flush_send_buffer at hfr ⊢
  rw [hs] at hfr ⊢
  simp only [] at hfr ⊢
  by_cases hb : s.send_buf.length = 0
  · rw [if_pos hb] at hfr ⊢
    exact ⟨s, hs, List.length_eq_zero.mp hb⟩
  · rw [if_neg hb] at hfr ⊢
    by_cases hp : s.protocol = IPPROTO_TCP
    · rw [if_pos hp] at hfr ⊢
      rcases hsd : tcp_send_data fuel m i s.send_buf with ⟨m1, r⟩
      rw [hsd] at hfr
      simp only [] at hfr ⊢
      by_cases hr : r < 0
      · rw [if_pos hr] at hfr
        norm_num at hfr
      · rw [if_neg hr] at hfr ⊢
        have hsp := shapePreserved_tcp_send_data fuel m i s.send_buf
        rw [hsd] at hsp
        obtain ⟨t, ht, hshape⟩ := shapePreserved_get hsp hs
        exact ⟨{ t with send_buf := [] }, updateSock_get_self _ ht, rfl⟩
    · rw [if_neg hp] at hfr ⊢
      by_cases hu : s.protocol = IPPROTO_UDP
      · rw [if_pos hu] at hfr ⊢
        rcases hsd : socket_send_udp_packet m i s.send_buf s.send_buf.length
          with ⟨m1, r⟩
        rw [hsd] at hfr
        simp only [] at hfr ⊢
        by_cases hr : r < 0
        · rw [if_pos hr] at hfr
          norm_num at hfr
        · rw [if_neg hr] at hfr ⊢
          have hlen : i < m1.socket_list.length := by
            have := socket_send_udp_packet_length m i s.send_buf s.send_buf.length
            rw [hsd] at this
            simp only [] at this
            omega
          obtain ⟨t, ht⟩ : ∃ t, m1.socket_list[i]? = some t := by
            rw [List.getElem?_eq_getElem hlen]
            exact ⟨_, rfl⟩
          exact ⟨{ t with send_buf := [] }, updateSock_get_self _ ht, rfl⟩
      · rw [if_neg hu] at hfr ⊢
        exact ⟨{ s with send_buf := [] }, updateSock_get_self _ hs, rfl⟩

lemma setSock_get_ne {m : Manager} {i k : Nat} (s : MySock) (hne : k ≠ i) :
    (setSock m i s).socket_list[k]? = m.socket_list[k]? :=
  List.getElem?_set_ne (fun he => hne he.symm)

lemma updateSock_get_ne {m : Manager} {i k : Nat} (f : MySock → MySock)
    (hne : k ≠ i) :
    (updateSock m i f).socket_list[k]? = m.socket_list[k]? := by
  unfold updateSock
  split
  · rfl
  · exact List.getElem?_set_ne (fun he => hne he.symm)

lemma findIdx?_none_iff {α : Type} (p : α → Bool) :
    ∀ (l : List α) (k : Nat),
      List.findIdx? p l k = none ↔ ∀ x ∈ l, p x = false := by
  intro l
  induction l with
  | nil =>
    intro k
    constructor
    · intro _ x hx
      simp at hx
    · intro _
      rfl
  | cons a t ih =>
    intro k
    rw [List.findIdx?_cons]
    by_cases hpa : p a = true
    · simp [hpa]
    · simp only [Bool.not_eq_true] at hpa
      simp [hpa, ih (k + 1)]

lemma socket_find_listening_none_iff (m : Manager) (a : AddrIn) :
    socket_find_listening_socket m a = none ↔
      ∀ s ∈ m.socket_list, ¬(s.state = SockState.SS_LISTENING ∧
        s.local_addr.sin_port = a.sin_port ∧
        (s.local_addr.sin_addr = 0 ∨ s.local_addr.sin_addr = a.sin_addr)) := by
  unfold socket_find_listening_socket
  rw [findIdx?_none_iff]
  constructor
  · intro h s hs
    simpa using h s hs
  · intro h s hs
    simpa using h s hs

lemma listening_pred_of_shape {s t : MySock} (h : sockShape s = sockShape t)
    (a : AddrIn)
    (hp : ¬(t.state = SockState.SS_LISTENING ∧ t.local_addr.sin_port = a.sin_port ∧
      (t.local_addr.sin_addr = 0 ∨ t.local_addr.sin_addr = a.sin_addr))) :
    ¬(s.state = SockState.SS_LISTENING ∧ s.local_addr.sin_port = a.sin_port ∧
      (s.local_addr.sin_addr = 0 ∨ s.local_addr.sin_addr = a.sin_addr)) := by
  obtain ⟨-, -, -, h4, h5, -, -, -⟩ := sockShape_fields h
  rw [h4, h5]
  exact hp

lemma shapePreserved_tcp_send_syn (fuel : Nat) (m : Manager) (i : Nat) (r : Nat) :
    shapePreserved m (tcp_send_syn fuel m i r).1 := by
  unfold tcp_send_syn
  split
  · exact shapePreserved_refl m
  · rename_i sock heq
    have hh := shapePreserved_packet_send fuel m
      { ip_src := sock.local_addr.sin_addr, ip_dst := sock.peer_addr.sin_addr,
        ip_protocol := IPPROTO_TCP,
        src_port := sock.local_addr.sin_port, dst_port := sock.peer_addr.sin_port,
        seq_num := mysocket_htonl (r % 4294967296), ack_num := 0,
        flags := TCP_FLAG_SYN, window := mysocket_htons 8192,
        checksum := tcp_checksum_val, data := [] }
    split
    rename_i m1 res hp
    rw [hp] at hh
    split
    · exact hh
    · exact hh

/-! ## Claim theorems -/

/-- C3: for every TCP sub-state s and each of the 8 events e (numbered 1..8),
tcp_state_transition from tcp_protocol.c yields exactly the next state listed
in the spec's section 4.5 table, and leaves the state unchanged on every
(state, event) pair the table does not list; exhaustive over all 11 states
and 8 events. -/
theorem tcp_transition_matches_spec_table :
    ∀ (s : TcpState) (e : Fin 8),
      tcp_state_transition s (e.val + 1) = spec_tcp_transition s (e.val + 1) := by
  decide

/-- C5 (amended): a successful listen installs a pending-queue capacity that
is the requested backlog clamped to [1, MAX_BACKLOG], except that a request
b <= 0 yields MAX_BACKLOG (= DEFAULT_LISTEN_BACKLOG = 128), not 1; requests
above 128 yield 128 and requests in [1, 128] are taken as is, so the
installed capacity always lies in [1, 128]. -/
theorem listen_backlog_amended {m : Manager} {sockfd : Nat} {backlog : Int}
    {i : Nat} {sock : MySock}
    (hf : socket_find_by_fd m sockfd = some (i, sock))
    (ht : sock.type = SOCK_STREAM)
    (hp : sock.local_addr.sin_port ≠ 0)
    (hs : sock.state = SockState.SS_UNCONNECTED) :
    (mysocket_listen m sockfd backlog).ret = 0 ∧
    (mysocket_listen m sockfd backlog).err = none ∧
    ∃ s', (mysocket_listen m sockfd backlog).mgr.socket_list[i]? = some s' ∧
      (backlog ≤ 0 → s'.listen_backlog = 128) ∧
      (0 < backlog → backlog ≤ 128 → (s'.listen_backlog : Int) = backlog) ∧
      (128 < backlog → s'.listen_backlog = 128) ∧
      1 ≤ s'.listen_backlog ∧ s'.listen_backlog ≤ 128 ∧
      s'.state = SockState.SS_LISTENING ∧ s'.listen_queue = [] := by
  have hspec := socket_find_by_fd_spec hf
  unfold mysocket_listen
  rw [hf]
  simp only []
  rw [if_neg (by simp [ht]), if_neg hp, if_neg (by simp [hs])]
  refine ⟨rfl, rfl, ?_⟩
  refine ⟨_, List.getElem?_set_self hspec.2, ?_, ?_, ?_, ?_, ?_, ?_, ?_⟩
  · intro hb
    simp only [DEFAULT_LISTEN_BACKLOG]
    split_ifs <;> omega
  · intro hb1 hb2
    simp only [DEFAULT_LISTEN_BACKLOG]
    split_ifs <;> omega
  · intro hb
    simp only [DEFAULT_LISTEN_BACKLOG]
    split_ifs <;> omega
  · simp only [DEFAULT_LISTEN_BACKLOG]
    split_ifs <;> omega
  · simp only [DEFAULT_LISTEN_BACKLOG]
    split_ifs <;> omega
  · rfl
  · rfl

theorem listen_backlog_amended_witness :
    (mysocket_listen listenFixMgr 3 5).ret = 0 ∧
    ∃ s', (mysocket_listen listenFixMgr 3 5).mgr.socket_list[0]? = some s' ∧
      (s'.listen_backlog : Int) = 5 := by
  obtain ⟨h1, h2, s', h3, h4, h5, h6, h7⟩ :=
    @listen_backlog_amended listenFixMgr 3 5 0 listenFixSock
      (by decide) (by decide) (by decide) (by decide)
  exact ⟨h1, s', h3, h5 (by decide) (by decide)⟩

/-- C5 (counterexample): the claim "a request of b <= 0 yields capacity 1" is
false: on a bound unconnected stream socket, listen with backlog 0 succeeds
and installs capacity 128 (DEFAULT_LISTEN_BACKLOG), not 1. -/
theorem listen_backlog_nonpositive_cex :
    (mysocket_listen listenFixMgr 3 0).ret = 0 ∧
    (∃ s', (mysocket_listen listenFixMgr 3 0).mgr.socket_list[0]? = some s' ∧
      s'.listen_backlog = 128 ∧ s'.listen_backlog ≠ 1) := by
  decide

/-- C1 (counterexample): with fd 3 bound to the specific address
127.0.0.1:8080, binding fd 4 to the wildcard address on the same port
succeeds (returns 0, no error set) although the claim demands that the
second bind of such a pair fail with ADDRESS_IN_USE; a specific duplicate
bind on the same port does fail, so the conflict check is skipped exactly
when the address being bound is the wildcard. -/
theorem bind_wildcard_second_succeeds_cex :
    (mysocket_bind bindFixMgr 4 ⟨AF_INET, mysocket_htons 8080, 0⟩ 16).ret = 0 ∧
    (mysocket_bind bindFixMgr 4 ⟨AF_INET, mysocket_htons 8080, 0⟩ 16).err = none ∧
    bindFixSock1.local_addr.sin_port = mysocket_htons 8080 ∧
    bindFixSock1.local_addr.sin_addr ≠ 0 ∧
    (mysocket_bind bindFixMgr 4
      ⟨AF_INET, mysocket_htons 8080, mysocket_inet_addr "127.0.0.1"⟩ 16).err =
      some MYSOCKET_EADDRINUSE := by
  decide

/-- C1 (amended): the bind conflict check runs only when the address being
bound is specific (non-wildcard): binding a non-wildcard address whose port
is already held by another bound socket with the wildcard or the same IP
fails with ADDRESS_IN_USE, while binding a wildcard address (valid family
and length, socket unconnected) always succeeds and never yields
ADDRESS_IN_USE, regardless of existing bindings on the same port. -/
theorem bind_conflict_amended {m : Manager} {sockfd : Nat} {addr : AddrIn}
    {addrlen i : Nat} {sock : MySock}
    (hf : socket_find_by_fd m sockfd = some (i, sock))
    (hlen : sizeof_addr_in ≤ addrlen)
    (hs : sock.state = SockState.SS_UNCONNECTED) :
    (addr.sin_addr ≠ 0 →
      (∃ cur ∈ m.socket_list, cur.fd ≠ sock.fd ∧ cur.local_addr.sin_port ≠ 0 ∧
        cur.local_addr.sin_port = addr.sin_port ∧
        (cur.local_addr.sin_addr = 0 ∨ cur.local_addr.sin_addr = addr.sin_addr)) →
      (mysocket_bind m sockfd addr addrlen).ret = -1 ∧
      (mysocket_bind m sockfd addr addrlen).err = some MYSOCKET_EADDRINUSE) ∧
    (addr.sin_addr = 0 → addr.sin_family = AF_INET →
      (mysocket_bind m sockfd addr addrlen).ret = 0 ∧
      (mysocket_bind m sockfd addr addrlen).err = none) := by
  unfold mysocket_bind
  rw [hf]
  simp only []
  rw [if_neg (by omega), if_neg (by simp [hs])]
  constructor
  · intro hna hex
    obtain ⟨cur, hmem, hfd, hport0, hport, hip⟩ := hex
    rw [if_pos ⟨by simp [socket_addr_is_any, hna],
      (socket_check_addr_in_use_iff m addr sock.fd).mpr
        ⟨cur, hmem, hfd, hport0, hport, by tauto⟩⟩]
    exact ⟨rfl, rfl⟩
  · intro h0 hfam
    rw [if_neg (by simp [socket_addr_is_any, h0])]
    unfold socket_addr_copy
    rw [if_neg (by simp [hfam]), if_neg (by omega)]
    exact ⟨rfl, rfl⟩

theorem bind_conflict_amended_witness :
    (mysocket_bind bindFixMgr 4
      ⟨AF_INET, mysocket_htons 8080, mysocket_inet_addr "127.0.0.1"⟩ 16).err =
      some MYSOCKET_EADDRINUSE ∧
    (mysocket_bind bindFixMgr 4 ⟨AF_INET, mysocket_htons 8080, 0⟩ 16).ret = 0 := by
  have h1 := @bind_conflict_amended bindFixMgr 4
    ⟨AF_INET, mysocket_htons 8080, mysocket_inet_addr "127.0.0.1"⟩ 16 1 bindFixSock2
    (by decide) (by decide) (by decide)
  have h2 := @bind_conflict_amended bindFixMgr 4
    ⟨AF_INET, mysocket_htons 8080, 0⟩ 16 1 bindFixSock2
    (by decide) (by decide) (by decide)
  exact ⟨(h1.1 (by decide) ⟨bindFixSock1, by decide⟩).2, (h2.2 (by decide) (by decide)).1⟩

theorem socket_buffer_write_length_le {buffer : List Nat} {total : Nat}
    {data : List Nat} {len : Nat} (h : buffer.length ≤ total) :
    (socket_buffer_write buffer total data len).1.length ≤ total := by
  unfold socket_buffer_write
  by_cases h0 : total - buffer.length = 0
  · rw [if_pos h0]
    exact h
  · rw [if_neg h0]
    simp [List.length_take]
    omega

/-- C6: a buffer write copies exactly min(len(data), capacity - used) bytes
at the tail, advances used by that amount, returns that count and never
reports an error, and used <= capacity is preserved by every single write
and by every sequence of writes. -/
theorem buffer_write_truncates_invariant :
    ∀ (buffer : List Nat) (total : Nat) (data : List Nat),
      buffer.length ≤ total →
      ((socket_buffer_write buffer total data data.length).2 =
        ((min data.length (total - buffer.length) : Nat) : Int) ∧
       (socket_buffer_write buffer total data data.length).1 =
        buffer ++ data.take (min data.length (total - buffer.length)) ∧
       (socket_buffer_write buffer total data data.length).1.length =
        buffer.length + min data.length (total - buffer.length) ∧
       0 ≤ (socket_buffer_write buffer total data data.length).2 ∧
       (socket_buffer_write buffer total data data.length).1.length ≤ total) ∧
      ∀ chunks : List (List Nat),
        (chunks.foldl (fun b d => (socket_buffer_write b total d d.length).1)
          buffer).length ≤ total := by
  intro buffer total data h
  refine ⟨?_, ?_⟩
  · unfold socket_buffer_write
    by_cases h0 : total - buffer.length = 0
    · rw [if_pos h0, h0]
      simpa using h
    · rw [if_neg h0]
      refine ⟨rfl, rfl, ?_, Int.natCast_nonneg _, ?_⟩
      · simp only [List.length_append, List.length_take]
        omega
      · simp only [List.length_append, List.length_take]
        omega
  · intro chunks
    revert h
    induction chunks generalizing buffer with
    | nil => exact fun h => h
    | cons c cs ih =>
      intro h
      simp only [List.foldl_cons]
      exact ih _ (socket_buffer_write_length_le h)

theorem buffer_write_truncates_invariant_witness :
    (socket_buffer_write [1, 2] 3 [7, 8, 9] 3).2 = 1 ∧
    (socket_buffer_write [1, 2] 3 [7, 8, 9] 3).1 = [1, 2, 7] ∧
    ([[7, 8, 9], [5], [6]].foldl
      (fun b d => (socket_buffer_write b 3 d d.length).1) [1, 2]).length ≤ 3 := by
  have h := buffer_write_truncates_invariant [1, 2] 3 [7, 8, 9] (by decide)
  refine ⟨?_, ?_, h.2 [[7, 8, 9], [5], [6]]⟩
  · have := h.1.1
    simpa using this
  · have := h.1.2.1
    simpa using this

/-- C8: the 16-bit byte swap is its own exact inverse on all 16-bit values
(so ntohs(htons(p)) = p and htons(ntohs(p)) = p), and likewise the 32-bit
swap on all 32-bit values. -/
theorem byte_order_involutions :
    ∀ x : Nat,
      (x < 65536 → mysocket_ntohs (mysocket_htons x) = x ∧
                   mysocket_htons (mysocket_ntohs x) = x) ∧
      (x < 4294967296 → mysocket_ntohl (mysocket_htonl x) = x ∧
                        mysocket_htonl (mysocket_ntohl x) = x) := by
  intro x
  refine ⟨fun h => ⟨?_, ?_⟩, fun h => ⟨hton32_involution h, ntoh32_involution h⟩⟩
  · show mysocket_htons (mysocket_htons x) = x
    exact hton16_involution h
  · show mysocket_htons (mysocket_htons x) = x
    exact hton16_involution h

theorem byte_order_involutions_witness :
    mysocket_ntohs (mysocket_htons 51966) = 51966 ∧
    mysocket_ntohl (mysocket_htonl 3735928559) = 3735928559 :=
  ⟨((byte_order_involutions 51966).1 (by decide)).1,
   ((byte_order_involutions 3735928559).2 (by decide)).1⟩

/-- C10: whenever recvfrom on a datagram socket returns bytes, the reported
source address is synthesized rather than the sender's: family AF_INET, IP
always 127.0.0.1 in network order (formatting it prints "127.0.0.1"), and a
port that is rand-derived in host range [32768, 62767], independent of any
sender. -/
theorem recvfrom_synthesized_source {m : Manager} {sockfd len addrlen_in r : Nat}
    {i : Nat} {sock : MySock}
    (hf : socket_find_by_fd m sockfd = some (i, sock))
    (hlen : len ≠ 0)
    (ht : sock.type = SOCK_DGRAM)
    (hbuf : sock.recv_buf ≠ [])
    (halen : sizeof_addr_in ≤ addrlen_in) :
    (mysocket_recvfrom m sockfd len true addrlen_in r).1.ret > 0 ∧
    (mysocket_recvfrom m sockfd len true addrlen_in r).2.1 =
      some ⟨AF_INET, mysocket_htons (r % 30000 + 32768), mysocket_htonl 0x7F000001⟩ ∧
    mysocket_ntohs (mysocket_htons (r % 30000 + 32768)) = r % 30000 + 32768 ∧
    32768 ≤ r % 30000 + 32768 ∧ r % 30000 + 32768 ≤ 62767 ∧
    mysocket_inet_ntoa (mysocket_htonl 0x7F000001) = String.mk (canonQuad 127 0 0 1) := by
  have hspec := socket_find_by_fd_spec hf
  unfold mysocket_recvfrom
  rw [hf]
  simp only []
  rw [if_neg hlen, if_neg (by simp [ht])]
  unfold socket_recv_udp_packet
  rw [hspec.1]
  simp only []
  rw [if_neg hlen]
  rw [if_neg (show ¬(sock.recv_buf.length = 0) by simp [hbuf])]
  simp only []
  rw [if_neg (not_lt.mpr (Int.natCast_nonneg (min len sock.recv_buf.length)))]
  have hb : 0 < sock.recv_buf.length := List.length_pos.mpr hbuf
  refine ⟨?_, ?_, ?_, by omega, by omega, by decide⟩
  · show ((min len sock.recv_buf.length : Nat) : Int) > 0
    have h1 : 0 < min len sock.recv_buf.length := by omega
    exact_mod_cast h1
  · rw [if_pos (⟨trivial, halen⟩ : True ∧ sizeof_addr_in ≤ addrlen_in)]
  · exact hton16_involution (by omega)

theorem recvfrom_synthesized_source_witness :
    (mysocket_recvfrom recvFixMgr 3 10 true 16 123456).1.ret > 0 ∧
    (mysocket_recvfrom recvFixMgr 3 10 true 16 123456).2.1 =
      some ⟨AF_INET, mysocket_htons (123456 % 30000 + 32768), mysocket_htonl 0x7F000001⟩ := by
  have h := @recvfrom_synthesized_source recvFixMgr 3 10 16 123456 0 recvFixSock
    (by decide) (by decide) (by decide) (by decide) (by decide)
  exact ⟨h.1, h.2.1⟩

/-- C7 (counterexample): the dotted-decimal parser accepts "1.2.3.4x"
(trailing garbage) and "+1.2.3.4" (an explicit sign), both of which the claim
requires it to reject; each yields the same nonzero packed address as the
canonical "1.2.3.4". -/
theorem inet_addr_garbage_accepted_cex :
    mysocket_inet_addr (String.mk ['1', '.', '2', '.', '3', '.', '4', 'x']) =
      mysocket_inet_addr (String.mk ['1', '.', '2', '.', '3', '.', '4']) ∧
    mysocket_inet_addr (String.mk ['+', '1', '.', '2', '.', '3', '.', '4']) =
      mysocket_inet_addr (String.mk ['1', '.', '2', '.', '3', '.', '4']) ∧
    mysocket_inet_addr (String.mk ['1', '.', '2', '.', '3', '.', '4']) ≠ 0 := by
  decide

/-- C7 (amended): on every canonical dotted-quad string (four groups, each
0-255, rendered without padding or signs) the parser returns the
network-order packing of the four groups and the formatter is its exact
inverse (format(parse(s)) = s).  The parser is however a prefix parser built
on sscanf %u: any trailing characters not starting with a digit are ignored
rather than rejected, and an explicit plus sign in front of any of the four
groups is consumed, the parse in both cases equalling the parse of the
canonical string; a canonically rendered group above 255 (below 2^32) makes
the function return 0 (rejection). -/
theorem inet_parse_format_amended :
    ∀ (a b c d : Nat),
      (a < 256 → b < 256 → c < 256 → d < 256 →
        (mysocket_inet_addr (String.mk (canonQuad a b c d)) =
           mysocket_htonl (a * 16777216 + b * 65536 + c * 256 + d) ∧
         mysocket_inet_ntoa (mysocket_inet_addr (String.mk (canonQuad a b c d))) =
           String.mk (canonQuad a b c d)) ∧
        (∀ rest : List Char, (∀ ch, rest.head? = some ch → isDig ch = false) →
          mysocket_inet_addr (String.mk (canonQuad a b c d ++ rest)) =
            mysocket_inet_addr (String.mk (canonQuad a b c d))) ∧
        (∀ f1 f2 f3 f4 : Bool,
          mysocket_inet_addr (String.mk (canonQuadPlus f1 f2 f3 f4 a b c d)) =
            mysocket_inet_addr (String.mk (canonQuad a b c d)))) ∧
      (a < 4294967296 → b < 4294967296 → c < 4294967296 → d < 4294967296 →
        (255 < a ∨ 255 < b ∨ 255 < c ∨ 255 < d) →
        mysocket_inet_addr (String.mk (canonQuad a b c d)) = 0) := by
  intro a b c d
  constructor
  · intro ha hb hc hd
    refine ⟨⟨inet_addr_canon a b c d ha hb hc hd,
      inet_roundtrip a b c d ha hb hc hd⟩, ?_,
      fun f1 f2 f3 f4 => inet_addr_canonPlus f1 f2 f3 f4 a b c d ha hb hc hd⟩
    intro rest hrest
    rw [inet_addr_canon_rest a b c d rest ha hb hc hd hrest,
      inet_addr_canon a b c d ha hb hc hd]
  · intro ha hb hc hd hout
    exact inet_addr_out_of_range a b c d ha hb hc hd hout

theorem inet_parse_format_amended_witness :
    mysocket_inet_ntoa (mysocket_inet_addr (String.mk (canonQuad 192 168 1 100))) =
      String.mk (canonQuad 192 168 1 100) ∧
    mysocket_inet_addr (String.mk (canonQuad 1 2 3 4 ++ ['x'])) =
      mysocket_inet_addr (String.mk (canonQuad 1 2 3 4)) ∧
    mysocket_inet_addr (String.mk (canonQuadPlus true false true false 1 2 3 4)) =
      mysocket_inet_addr (String.mk (canonQuad 1 2 3 4)) ∧
    mysocket_inet_addr (String.mk (canonQuad 999 0 0 1)) = 0 := by
  have h := inet_parse_format_amended 192 168 1 100
  have h2 := inet_parse_format_amended 1 2 3 4
  have h3 := inet_parse_format_amended 999 0 0 1
  refine ⟨(h.1 (by decide) (by decide) (by decide) (by decide)).1.2,
    (h2.1 (by decide) (by decide) (by decide) (by decide)).2.1 ['x'] ?_,
    (h2.1 (by decide) (by decide) (by decide) (by decide)).2.2 true false true false,
    h3.2 (by decide) (by decide) (by decide) (by decide) (by decide)⟩
  intro ch hch
  simp only [List.head?_cons, Option.some.injEq] at hch
  subst hch
  decide

/-- C2 (counterexample): a connected TCP socket whose peer address matches no
registry entry: the send call accepts the bytes into the send buffer but then
reports failure (-1 with the generic error), not the success the claim
demands. -/
theorem send_tcp_no_match_fails_cex :
    socket_find_by_address sendTcpFixMgr
      ⟨AF_INET, sendTcpFixSock.peer_addr.sin_port, sendTcpFixSock.peer_addr.sin_addr⟩ =
      none ∧
    sendTcpFixSock.state = SockState.SS_CONNECTED ∧
    sendTcpFixSock.protocol = IPPROTO_TCP ∧
    (mysocket_send 4 sendTcpFixMgr 3 [1, 2, 3]).ret = -1 ∧
    (mysocket_send 4 sendTcpFixMgr 3 [1, 2, 3]).err = some MYSOCKET_ERROR := by
  decide

/-- C2 (amended): dispatch with no matching destination is fire-and-forget
only on the UDP path (the send reports the accepted byte count and no error);
on the TCP path the failed dispatch is propagated: the send returns -1 with
the generic error and the accepted bytes stay in the send buffer. -/
theorem send_no_match_amended {fuel : Nat} {m : Manager} {sockfd : Nat}
    {data : List Nat} {i : Nat} {sock : MySock}
    (hf : socket_find_by_fd m sockfd = some (i, sock))
    (hd : data ≠ [])
    (hst : sock.state = SockState.SS_CONNECTED)
    (havail : 0 < sock.send_buf_size - sock.send_buf.length) :
    (sock.protocol = IPPROTO_TCP →
      socket_find_by_address m
        ⟨AF_INET, sock.peer_addr.sin_port, sock.peer_addr.sin_addr⟩ = none →
      (mysocket_send fuel m sockfd data).ret = -1 ∧
      (mysocket_send fuel m sockfd data).err = some MYSOCKET_ERROR ∧
      (mysocket_send fuel m sockfd data).mgr.socket_list[i]? =
        some { sock with send_buf := sendBufAfterWrite sock data }) ∧
    (sock.protocol = IPPROTO_UDP →
      socket_find_udp_receiver m sock.peer_addr = none →
      (mysocket_send fuel m sockfd data).ret =
        ((min data.length (sock.send_buf_size - sock.send_buf.length) : Nat) : Int) ∧
      (mysocket_send fuel m sockfd data).err = none) := by
  have hspec := socket_find_by_fd_spec hf
  have hdlen : ¬(data.length = 0) := by simpa using hd
  have hmin : min (min data.length (sock.send_buf_size - sock.send_buf.length))
      (sock.send_buf_size - sock.send_buf.length) =
      min data.length (sock.send_buf_size - sock.send_buf.length) := by omega
  have hnewlen : ¬((sendBufAfterWrite sock data).length = 0) := by
    unfold sendBufAfterWrite
    simp only [List.length_append, List.length_take]
    omega
  have hget : (setSock m i
      { sock with send_buf := sendBufAfterWrite sock data }).socket_list[i]? =
      some { sock with send_buf := sendBufAfterWrite sock data } :=
    List.getElem?_set_self hspec.2
  have hpres : shapePreserved m (setSock m i
      { sock with send_buf := sendBufAfterWrite sock data }) :=
    shapePreserved_setSock hspec.1 rfl (fun hc => hc)
  unfold mysocket_send
  rw [hf]
  simp only []
  rw [if_neg hdlen, if_neg (by simp [hst]), if_neg (by omega)]
  unfold socket_buffer_write
  rw [if_neg (show ¬(sock.send_buf_size - sock.send_buf.length = 0) by omega)]
  simp only []
  rw [hmin]
  rw [show sock.send_buf ++ data.take
    (min data.length (sock.send_buf_size - sock.send_buf.length)) =
    sendBufAfterWrite sock data from rfl]
  rw [if_neg (not_lt.mpr (Int.natCast_nonneg _))]
  constructor
  · intro hp hfind
    have hfind2 : socket_find_by_address (setSock m i
        { sock with send_buf := sendBufAfterWrite sock data })
        ⟨AF_INET, sock.peer_addr.sin_port, sock.peer_addr.sin_addr⟩ = none := by
      rw [socket_find_by_address_congr hpres]
      exact hfind
    unfold socket_flush_send_buffer
    rw [hget]
    simp only []
    rw [if_neg hnewlen]
    rw [if_pos hp]
    unfold tcp_send_data
    rw [hget]
    simp only []
    rw [if_neg hnewlen]
    rw [packet_send_no_match hfind2]
    norm_num
    exact hget
  · intro hp hfind
    have hfind2 : socket_find_udp_receiver (setSock m i
        { sock with send_buf := sendBufAfterWrite sock data })
        sock.peer_addr = none := by
      rw [socket_find_udp_receiver_congr hpres]
      exact hfind
    unfold socket_flush_send_buffer
    rw [hget]
    simp only []
    rw [if_neg hnewlen]
    rw [if_neg (show ¬(sock.protocol = IPPROTO_TCP) by rw [hp]; decide)]
    rw [if_pos hp]
    unfold socket_send_udp_packet
    rw [hget]
    simp only []
    rw [if_neg hnewlen]
    rw [hfind2]
    simp only []
    rw [if_neg (not_lt.mpr (Int.natCast_nonneg _))]
    rw [if_neg (show ¬((0 : Int) < 0) by norm_num)]
    exact ⟨rfl, rfl⟩

theorem send_no_match_amended_witness :
    (mysocket_send 4 sendTcpFixMgr 3 [1, 2, 3]).err = some MYSOCKET_ERROR ∧
    (mysocket_send 4 sendUdpFixMgr 3 [1, 2, 3]).ret = 3 ∧
    (mysocket_send 4 sendUdpFixMgr 3 [1, 2, 3]).err = none := by
  have h1 := @send_no_match_amended 4 sendTcpFixMgr 3 [1, 2, 3] 0 sendTcpFixSock
    (by decide) (by decide) (by decide) (by decide)
  have h2 := @send_no_match_amended 4 sendUdpFixMgr 3 [1, 2, 3] 0 sendUdpFixSock
    (by decide) (by decide) (by decide) (by decide)
  refine ⟨(h1.1 (by decide) (by decide)).2.1, ?_, (h2.2 (by decide) (by decide)).2⟩
  have h3 := (h2.2 (by decide) (by decide)).1
  rw [h3]
  decide

/-- C9 (counterexample): a connected TCP socket with an 8-byte send buffer
already holding 5 bytes (left behind by an earlier failed dispatch) and a
matching destination now present: sending 4 more bytes succeeds but returns
3 = min(4, capacity - used), not min(4, capacity) = 4 as the claim states. -/
theorem send_count_capacity_cex :
    nineFixSockA2.send_buf_size = 8 ∧
    nineFixSockA2.send_buf.length = 5 ∧
    0 ≤ (mysocket_send 4 nineFixMgr2 3 [6, 7, 8, 9]).ret ∧
    (mysocket_send 4 nineFixMgr2 3 [6, 7, 8, 9]).ret = 3 ∧
    (3 : Int) ≠ ((min 4 8 : Nat) : Int) := by
  decide

/-- C9 (amended): after a send call that returns a nonnegative count, the
socket's send buffer is empty (the flush drains it on every success path) and
the returned count equals min(len, capacity - used-at-entry); the count
reaches min(len, capacity) only when the buffer was empty on entry. -/
theorem send_success_drains_amended {fuel : Nat} {m : Manager} {sockfd : Nat}
    {data : List Nat} {i : Nat} {sock : MySock}
    (hf : socket_find_by_fd m sockfd = some (i, sock))
    (hd : data ≠ [])
    (hst : sock.state = SockState.SS_CONNECTED)
    (havail : 0 < sock.send_buf_size - sock.send_buf.length)
    (hok : 0 ≤ (mysocket_send fuel m sockfd data).ret) :
    (mysocket_send fuel m sockfd data).ret =
      ((min data.length (sock.send_buf_size - sock.send_buf.length) : Nat) : Int) ∧
    ∃ s', (mysocket_send fuel m sockfd data).mgr.socket_list[i]? = some s' ∧
      s'.send_buf = [] := by
  have hspec := socket_find_by_fd_spec hf
  have hdlen : ¬(data.length = 0) := by simpa using hd
  have hmin : min (min data.length (sock.send_buf_size - sock.send_buf.length))
      (sock.send_buf_size - sock.send_buf.length) =
      min data.length (sock.send_buf_size - sock.send_buf.length) := by omega
  have hget : (setSock m i
      { sock with send_buf := sendBufAfterWrite sock data }).socket_list[i]? =
      some { sock with send_buf := sendBufAfterWrite sock data } :=
    List.getElem?_set_self hspec.2
  unfold mysocket_send at hok ⊢
  rw [hf] at hok ⊢
  simp only [] at hok ⊢
  rw [if_neg hdlen, if_neg (by simp [hst]),
    if_neg (show ¬(sock.send_buf_size - sock.send_buf.length = 0) by omega)] at hok ⊢
  unfold socket_buffer_write at hok ⊢
  rw [if_neg (show ¬(sock.send_buf_size - sock.send_buf.length = 0) by omega)] at hok ⊢
  simp only [] at hok ⊢
  rw [hmin] at hok ⊢
  rw [show sock.send_buf ++ data.take
    (min data.length (sock.send_buf_size - sock.send_buf.length)) =
    sendBufAfterWrite sock data from rfl] at hok ⊢
  rw [if_neg (not_lt.mpr (Int.natCast_nonneg
    (min data.length (sock.send_buf_size - sock.send_buf.length))))] at hok ⊢
  rcases hfl : socket_flush_send_buffer fuel
    (setSock m i { sock with send_buf := sendBufAfterWrite sock data }) i
    with ⟨m2, fr⟩
  rw [hfl] at hok
  simp only [] at hok ⊢
  by_cases hfr : fr < 0
  · rw [if_pos hfr] at hok
    norm_num at hok
  · rw [if_neg hfr] at hok ⊢
    refine ⟨rfl, ?_⟩
    have hdr := socket_flush_send_buffer_drains hget
      (show 0 ≤ (socket_flush_send_buffer fuel
        (setSock m i { sock with send_buf := sendBufAfterWrite sock data }) i).2 by
          rw [hfl]
          simp only []
          omega)
    rw [hfl] at hdr
    simp only [] at hdr
    exact hdr

theorem send_success_drains_amended_witness :
    (mysocket_send 4 nineFixMgr2 3 [6, 7, 8, 9]).ret = 3 ∧
    ∃ s', (mysocket_send 4 nineFixMgr2 3 [6, 7, 8, 9]).mgr.socket_list[0]? =
      some s' ∧ s'.send_buf = [] := by
  have h := @send_success_drains_amended 4 nineFixMgr2 3 [6, 7, 8, 9] 0 nineFixSockA2
    (by decide) (by decide) (by decide) (by decide) (by decide)
  refine ⟨?_, h.2⟩
  rw [h.1]
  decide

/-- C4: connect on an unconnected, locally bound TCP socket (TCP sub-state
CLOSED) to a target address for which no registry record is listening with a
matching wildcard-or-exact local address fails with CONNECTION_REFUSED, and
on that failure the socket's connection state is unconnected and its TCP
sub-state CLOSED: the CONNECTING / SYN_SENT intermediates are rolled back. -/
theorem connect_refused_no_listener {fuel : Nat} {m : Manager} {sockfd : Nat}
    {addr : AddrIn} {addrlen cursor r : Nat} {i : Nat} {sock : MySock}
    (hf : socket_find_by_fd m sockfd = some (i, sock))
    (hlen : sizeof_addr_in ≤ addrlen)
    (hst : sock.state = SockState.SS_UNCONNECTED)
    (hfam : addr.sin_family = AF_INET)
    (hproto : sock.protocol = IPPROTO_TCP)
    (hport : sock.local_addr.sin_port ≠ 0)
    (htcp : sock.tcp_state = TcpState.TCP_CLOSED)
    (hnl : socket_find_listening_socket m addr = none) :
    (mysocket_connect fuel m sockfd addr addrlen cursor r).1.ret = -1 ∧
    (mysocket_connect fuel m sockfd addr addrlen cursor r).1.err =
      some MYSOCKET_ECONNREFUSED ∧
    ∃ s', (mysocket_connect fuel m sockfd addr addrlen cursor r).1.mgr.socket_list[i]? =
      some s' ∧ s'.state = SockState.SS_UNCONNECTED ∧
      s'.tcp_state = TcpState.TCP_CLOSED := by
  have hspec := socket_find_by_fd_spec hf
  have hget1 : (setSock m i { sock with peer_addr := addr }).socket_list[i]? =
      some { sock with peer_addr := addr } := List.getElem?_set_self hspec.2
  have hget3 : (updateSock (setSock m i { sock with peer_addr := addr }) i
      (fun s => { s with state := SockState.SS_CONNECTING })).socket_list[i]? =
      some { sock with peer_addr := addr, state := SockState.SS_CONNECTING } :=
    updateSock_get_self _ hget1
  have hP := shapePreserved_tcp_send_syn fuel
    (updateSock (setSock m i { sock with peer_addr := addr }) i
      (fun s => { s with state := SockState.SS_CONNECTING })) i r
  obtain ⟨t4, hget4, hsh4⟩ := shapePreserved_get hP hget3
  obtain ⟨-, -, -, hst4, -, hpeer4, -, -⟩ := sockShape_fields hsh4
  have htcp4 : t4.tcp_state = TcpState.TCP_CLOSED :=
    hP.2 i _ t4 hget3 hget4 (by exact htcp)
  unfold mysocket_connect
  rw [hf]
  simp only []
  rw [if_neg (show ¬(addrlen < sizeof_addr_in) by omega), if_neg (by simp [hst])]
  unfold socket_addr_copy
  rw [if_neg (by simp [hfam]), if_neg (show ¬(addrlen < sizeof_addr_in) by omega)]
  simp only []
  rw [if_neg hport]
  simp only []
  rw [if_pos hproto]
  by_cases hs4 : (tcp_send_syn fuel
      (updateSock (setSock m i { sock with peer_addr := addr }) i
        (fun s => { s with state := SockState.SS_CONNECTING })) i r).2 < 0
  · rw [if_pos hs4]
    exact ⟨rfl, rfl, { t4 with state := SockState.SS_UNCONNECTED },
      updateSock_get_self _ hget4, rfl, htcp4⟩
  · rw [if_neg hs4]
    have hget5 : (updateSock (tcp_send_syn fuel
        (updateSock (setSock m i { sock with peer_addr := addr }) i
          (fun s => { s with state := SockState.SS_CONNECTING })) i r).1 i
        (fun s => { s with tcp_state := TcpState.TCP_SYN_SENT })).socket_list[i]? =
        some { t4 with tcp_state := TcpState.TCP_SYN_SENT } :=
      updateSock_get_self _ hget4
    unfold socket_simulate_tcp_handshake
    rw [hget5]
    simp only []
    rw [hpeer4]
    by_cases hz : addr.sin_addr = 0 ∨ addr.sin_port = 0
    · rw [if_pos hz]
      rw [if_pos (show (-1 : Int) < 0 by norm_num)]
      exact ⟨rfl, rfl, _, updateSock_get_self _ hget5, rfl, rfl⟩
    · rw [if_neg hz]
      have hnl5 : socket_find_listening_socket (updateSock (tcp_send_syn fuel
          (updateSock (setSock m i { sock with peer_addr := addr }) i
            (fun s => { s with state := SockState.SS_CONNECTING })) i r).1 i
          (fun s => { s with tcp_state := TcpState.TCP_SYN_SENT })) addr = none := by
        apply (socket_find_listening_none_iff _ addr).mpr
        intro x hx
        obtain ⟨k, hk⟩ := List.mem_iff_getElem?.mp hx
        by_cases hki : k = i
        · subst hki
          rw [hget5] at hk
          injection hk with hk
          subst hk
          intro hc
          have hcs := hc.1
          rw [show ({ t4 with tcp_state := TcpState.TCP_SYN_SENT } : MySock).state =
            t4.state from rfl, hst4] at hcs
          exact SockState.noConfusion hcs
        · rw [updateSock_get_ne _ hki] at hk
          have hmap := hP.1 k
          rw [hk] at hmap
          rw [updateSock_get_ne _ hki, setSock_get_ne _ hki] at hmap
          rcases hmk : m.socket_list[k]? with _ | y
          · rw [hmk] at hmap
            simp at hmap
          · rw [hmk] at hmap
            simp only [Option.map_some'] at hmap
            injection hmap with hmap
            exact listening_pred_of_shape hmap addr
              ((socket_find_listening_none_iff m addr).mp hnl y
                (List.mem_iff_getElem?.mpr ⟨k, hmk⟩))
      rw [hnl5]
      simp only []
      rw [if_pos (show (-1 : Int) < 0 by norm_num)]
      exact ⟨rfl, rfl, _, updateSock_get_self _ hget5, rfl, rfl⟩

theorem connect_refused_no_listener_witness :
    (mysocket_connect 4 connFixMgr 3 connFixTarget 16 32768 7).1.ret = -1 ∧
    (mysocket_connect 4 connFixMgr 3 connFixTarget 16 32768 7).1.err =
      some MYSOCKET_ECONNREFUSED ∧
    ∃ s', (mysocket_connect 4 connFixMgr 3 connFixTarget 16 32768 7).1.mgr.socket_list[0]? =
      some s' ∧ s'.state = SockState.SS_UNCONNECTED ∧
      s'.tcp_state = TcpState.TCP_CLOSED :=
  @connect_refused_no_listener 4 connFixMgr 3 connFixTarget 16 32768 7 0 connFixSock
    (by decide) (by decide) (by decide) (by decide)
    (by decide) (by decide) (by decide) (by decide)

end MySocket
